import Mathlib

/-!
Verification of the SyncOS core kernel specification against a shallow
embedding of the C sources (pmm.c, vmm.c, timer.c, irq.c, pic.c, elf.c,
process.c).  Machine integers are modelled as Nat with explicit masking
where the C code masks; fallible C functions returning a null pointer or
a zero address on failure are modelled with Option; physical memory is a
total function from frame base addresses to frame contents (a frame is
viewed as 512 little-endian 64-bit words, which is how the page-table
code accesses it).  The embedding is single-threaded: spinlock
acquire/release pairs in the C are no-ops for the state we model.
-/

set_option maxRecDepth 100000

namespace SyncOS

/-! ## Physical memory manager (pmm.c)

The PMM is a bitmap allocator.  `bitmap` is a Nat whose bit `i` is set
exactly when page `i` (at physical address `kernel_start + i * 4096`) is
used; this models the C `static_bitmap` byte array where
`page_bitmap[i / 8] & (1 << (i % 8))` is bit `i` of this Nat.
-/

def PAGE_SIZE : Nat := 4096

structure MemmapEntry where
  base : Nat
  length : Nat
  typ : Nat
deriving DecidableEq, Repr

/-- LIMINE_MEMMAP_USABLE -/
def MEMMAP_USABLE : Nat := 0

structure PMMState where
  bitmap : Nat
  kernel_start : Nat
  max_pages : Nat
  kernel_end : Nat
deriving DecidableEq, Repr

instance : Inhabited PMMState := ⟨⟨0, 0, 0, 0⟩⟩

/-- The inner loop of pmm_init that marks one (clamped) non-usable region
as used: `for (addr = rs; addr < re; addr += 4096) set bit ((addr - kstart)/4096)`. -/
def markRegionUsed (bm kstart rs re : Nat) : Nat :=
  (List.range ((re - rs + 4095) / 4096)).foldl
    (fun b k => b ||| (1 <<< ((rs + k * 4096 - kstart) / 4096))) bm

/-- pmm_init marking the first 256 pages used:
`for (i = 0; i < 256 && i < max_pages; i++) set bit i`. -/
def markLowPages (bm maxp : Nat) : Nat :=
  (List.range 256).foldl (fun b i => if i < maxp then b ||| (1 <<< i) else b) bm

/-- pmm_init (pmm.c).  STATIC_BITMAP_SIZE = 8192 so the initial
max_pages is 8192 * 8 = 65536. -/
def pmm_init (memmap : List MemmapEntry) : PMMState :=
  let max0 : Nat := 8192 * 8
  let scan := memmap.foldl
    (fun (acc : Nat × Nat) e =>
      if e.typ = MEMMAP_USABLE ∧ e.length > acc.2 ∧ e.base ≥ 0x100000 then
        (e.base, e.length)
      else acc)
    (0x100000, 0)
  let start_address := scan.1
  let largest := scan.2
  let maxp := if max0 * PAGE_SIZE > largest then largest / PAGE_SIZE else max0
  let kend := start_address + maxp * PAGE_SIZE
  let bm1 := memmap.foldl
    (fun b e =>
      if e.typ = MEMMAP_USABLE then b
      else if e.base ≥ kend ∨ e.base + e.length ≤ start_address then b
      else
        let rs := if e.base < start_address then start_address else e.base
        let re := if e.base + e.length > kend then kend else e.base + e.length
        markRegionUsed b start_address rs re)
    0
  let bm2 := markLowPages bm1 maxp
  { bitmap := bm2, kernel_start := start_address, max_pages := maxp,
    kernel_end := kend }

/-- The scan loop of pmm_alloc_page: first free page index at or after
`i`, with `fuel` indices left to inspect. -/
def findFreeFrom (bm : Nat) : Nat → Nat → Option Nat
  | _, 0 => none
  | i, fuel + 1 => if bm.testBit i then findFreeFrom bm (i + 1) fuel else some i

/-- pmm_alloc_page (pmm.c). -/
def pmm_alloc_page (s : PMMState) : Option (Nat × PMMState) :=
  match findFreeFrom s.bitmap 0 s.max_pages with
  | none => none
  | some i =>
      some (s.kernel_start + i * PAGE_SIZE,
            { s with bitmap := s.bitmap ||| (1 <<< i) })

/-- The scan loop of pmm_alloc_pages: looks for `count` consecutive free
pages; `found` pages of the current run have been seen, starting at
`start`. -/
def findRunFrom (bm count : Nat) : Nat → Nat → Nat → Nat → Option Nat
  | _, _, _, 0 => none
  | i, found, start, fuel + 1 =>
      if bm.testBit i then
        findRunFrom bm count (i + 1) 0 start fuel
      else
        let start' := if found = 0 then i else start
        if found + 1 = count then some start'
        else findRunFrom bm count (i + 1) (found + 1) start' fuel

/-- The marking loop of pmm_alloc_pages. -/
def markRun (bm start count : Nat) : Nat :=
  (List.range count).foldl (fun b j => b ||| (1 <<< (start + j))) bm

/-- pmm_alloc_pages (pmm.c). -/
def pmm_alloc_pages (s : PMMState) (count : Nat) : Option (Nat × PMMState) :=
  if count = 0 then none
  else if count = 1 then pmm_alloc_page s
  else
    match findRunFrom s.bitmap count 0 0 0 s.max_pages with
    | none => none
    | some start =>
        some (s.kernel_start + start * PAGE_SIZE,
              { s with bitmap := markRun s.bitmap start count })

/-- pmm_free_page (pmm.c): out-of-range or unaligned addresses are
ignored; freeing clears the bit. -/
def pmm_free_page (s : PMMState) (page : Nat) : PMMState :=
  if page < s.kernel_start ∨ page ≥ s.kernel_end ∨ page % PAGE_SIZE ≠ 0 then s
  else
    let i := (page - s.kernel_start) / PAGE_SIZE
    if s.bitmap.testBit i then { s with bitmap := s.bitmap ^^^ (1 <<< i) }
    else s

/-- pmm_free_pages (pmm.c). -/
def pmm_free_pages (s : PMMState) (page count : Nat) : PMMState :=
  (List.range count).foldl (fun st i => pmm_free_page st (page + i * PAGE_SIZE)) s

/-- The counting loop of pmm_get_free_memory, in pages. -/
def countFreeFrom (bm : Nat) : Nat → Nat → Nat
  | _, 0 => 0
  | i, fuel + 1 => (if bm.testBit i then 0 else 1) + countFreeFrom bm (i + 1) fuel

/-- pmm_get_free_memory (pmm.c), in bytes. -/
def pmm_get_free_memory (s : PMMState) : Nat :=
  countFreeFrom s.bitmap 0 s.max_pages * PAGE_SIZE

/-! ### Claim C5 -/

/-- The PMM state after initialisation from a memory map whose single
usable region is [0x10_0000, 0x800_0000). -/
def c5_s0 : PMMState := pmm_init [⟨0x100000, 0x7F00000, MEMMAP_USABLE⟩]

def c5_s1 : PMMState := ((pmm_alloc_pages c5_s0 4).map Prod.snd).getD default

def c5_s2 : PMMState := ((pmm_alloc_page c5_s1).map Prod.snd).getD default

def c5_s3 : PMMState := pmm_free_pages c5_s2 0x200000 4

/-- Claim C5: after PMM initialisation from a memory map whose single
usable region is [0x10_0000, 0x800_0000), alloc_pages(4) returns some P
(namely 0x20_0000) with P >= 0x10_0000, P aligned, P + 4*4096 <=
0x800_0000; an immediately following alloc_page() returns P + 4*4096;
and free_pages(P, 4) followed by alloc_pages(4) returns exactly P. -/
theorem c5_pmm_allocation_pattern :
    ∃ P, pmm_alloc_pages c5_s0 4 = some (P, c5_s1) ∧
      P ≥ 0x100000 ∧ P % 4096 = 0 ∧ P + 4 * 4096 ≤ 0x8000000 ∧
      pmm_alloc_page c5_s1 = some (P + 4 * 4096, c5_s2) ∧
      ∃ s4, pmm_alloc_pages (pmm_free_pages c5_s2 P 4) 4 = some (P, s4) := by
  refine ⟨0x200000, by decide, by decide, by decide, by decide, by decide,
    c5_s2, by decide⟩

/-! ## Virtual memory manager (vmm.c)

A page-table frame is modelled as a total function from entry index to
the 64-bit entry value; physical memory is a total function from frame
base address to frame contents.  phys_to_virt(p) is non-null exactly
when p is nonzero, and reads/writes through the HHDM window are
reads/writes of the frame at p.
-/

def PTable : Type := Nat → Nat

def emptyTable : PTable := fun _ => 0

def tset (t : PTable) (i v : Nat) : PTable := fun j => if j = i then v else t j

def Mem : Type := Nat → PTable

def mset (m : Mem) (p : Nat) (t : PTable) : Mem := fun q => if q = p then t else m q

/-- Write 64-bit word `i` of the frame at `p`. -/
def mwrite (m : Mem) (p i v : Nat) : Mem := mset m p (tset (m p) i v)

def PAGE_PRESENT : Nat := 1
def PAGE_WRITABLE : Nat := 2
def PAGE_USER : Nat := 4
def PAGE_WRITETHROUGH : Nat := 8
def PAGE_CACHE_DISABLE : Nat := 16
def PAGE_HUGE : Nat := 128
def PAGE_GLOBAL : Nat := 256
def PAGE_NO_EXECUTE : Nat := 2 ^ 63

/-- PAGE_ADDR_MASK = ~0xFFFUL on uint64. -/
def PAGE_ADDR_MASK : Nat := 0xFFFFFFFFFFFFF000

def entAddr (e : Nat) : Nat := e &&& PAGE_ADDR_MASK

def PML4_INDEX (a : Nat) : Nat := (a >>> 39) &&& 0x1FF
def PDPT_INDEX (a : Nat) : Nat := (a >>> 30) &&& 0x1FF
def PD_INDEX (a : Nat) : Nat := (a >>> 21) &&& 0x1FF
def PT_INDEX (a : Nat) : Nat := (a >>> 12) &&& 0x1FF

def VMM_FLAG_PRESENT : Nat := 1
def VMM_FLAG_WRITABLE : Nat := 2
def VMM_FLAG_USER : Nat := 4
def VMM_FLAG_WRITETHROUGH : Nat := 8
def VMM_FLAG_NOCACHE : Nat := 16
def VMM_FLAG_HUGE : Nat := 128
def VMM_FLAG_GLOBAL : Nat := 256
def VMM_FLAG_NO_EXECUTE : Nat := 2 ^ 63

structure VMMState where
  mem : Mem
  pmm : PMMState
  current_pml4 : Nat
  hhdm_offset : Nat
  using_nx : Bool

/-- create_page_table (vmm.c): allocate a frame from the PMM and
zero-fill it.  The C checks the returned address against 0. -/
def create_page_table (s : VMMState) : Option (Nat × VMMState) :=
  match pmm_alloc_page s.pmm with
  | none => none
  | some (page, pmm') =>
      if page = 0 then none
      else some (page, { s with pmm := pmm', mem := mset s.mem page emptyTable })

/-- The intermediate-table entry installed by map_page_internal when a
level is missing: PRESENT | WRITABLE, plus USER when the leaf virtual
address is in the lower half. -/
def newTableEntry (newt virt : Nat) : Nat :=
  let e := newt ||| PAGE_PRESENT ||| PAGE_WRITABLE
  if virt < 0x8000000000000000 then e ||| PAGE_USER else e

/-- One "ensure the next-level table exists" step of map_page_internal:
if the entry at (tbl, idx) is not present, allocate and zero a new table
frame and install it (with USER for lower-half leaves).  Fails only when
the PMM is exhausted. -/
def ensure_entry (s : VMMState) (tbl idx virt : Nat) : Option VMMState :=
  if (s.mem tbl idx) &&& PAGE_PRESENT = 0 then
    match create_page_table s with
    | none => none
    | some (newt, s1) =>
        some { s1 with mem := mwrite s1.mem tbl idx (newTableEntry newt virt) }
  else some s

/-- map_page_internal from the point where the PD base address is in
hand: the 2 MiB huge case, then ensure-PT, then the 4 KiB leaf write. -/
def map_level_pd (s2 : VMMState) (pd_base virt phys flags : Nat) : Bool × VMMState :=
  if flags &&& PAGE_HUGE ≠ 0 ∧ virt &&& 0x1FFFFF = 0 ∧ phys &&& 0x1FFFFF = 0 then
    (true, { s2 with mem := mwrite s2.mem pd_base (PD_INDEX virt) (phys ||| flags ||| PAGE_HUGE) })
  else
    match ensure_entry s2 pd_base (PD_INDEX virt) virt with
    | none => (false, s2)
    | some s3 =>
        if entAddr (s3.mem pd_base (PD_INDEX virt)) = 0 then (false, s3)
        else (true, { s3 with mem := mwrite s3.mem (entAddr (s3.mem pd_base (PD_INDEX virt))) (PT_INDEX virt) (phys ||| flags) })

/-- map_page_internal from the point where the PDPT base address is in
hand: the 1 GiB huge case, then ensure-PD and descend. -/
def map_level_pdpt (s1 : VMMState) (pdpt_base virt phys flags : Nat) : Bool × VMMState :=
  if flags &&& PAGE_HUGE ≠ 0 ∧ virt &&& 0x3FFFFFFF = 0 ∧ phys &&& 0x3FFFFFFF = 0 then
    (true, { s1 with mem := mwrite s1.mem pdpt_base (PDPT_INDEX virt) (phys ||| flags ||| PAGE_HUGE) })
  else
    match ensure_entry s1 pdpt_base (PDPT_INDEX virt) virt with
    | none => (false, s1)
    | some s2 =>
        if entAddr (s2.mem pdpt_base (PDPT_INDEX virt)) = 0 then (false, s2)
        else map_level_pd s2 (entAddr (s2.mem pdpt_base (PDPT_INDEX virt))) virt phys flags

/-- The body of map_page_internal after the null checks and the 4 KiB
alignment of virt and phys. -/
def map_page_aligned (s0 : VMMState) (pml4_phys virt phys flags : Nat) :
    Bool × VMMState :=
  match ensure_entry s0 pml4_phys (PML4_INDEX virt) virt with
  | none => (false, s0)
  | some s1 =>
      if entAddr (s1.mem pml4_phys (PML4_INDEX virt)) = 0 then (false, s1)
      else map_level_pdpt s1 (entAddr (s1.mem pml4_phys (PML4_INDEX virt))) virt phys flags

/-- map_page_internal (vmm.c), in exact source order.  Returns the C
bool result together with the post-state (failure can leave freshly
created intermediate tables installed, as in the C). -/
def map_page_internal (s0 : VMMState) (pml4_phys virt0 phys0 flags : Nat) :
    Bool × VMMState :=
  if pml4_phys = 0 ∨ virt0 = 0 ∨ phys0 = 0 then (false, s0)
  else map_page_aligned s0 pml4_phys (virt0 &&& PAGE_ADDR_MASK)
    (phys0 &&& PAGE_ADDR_MASK) flags

/-- The VMM flag to hardware flag translation performed by vmm_map_page
(vmm.c lines 402-415).  The NX bit is set only when requested and the
CPU supports NX. -/
def vmm_hw_flags (flags : Nat) (nx : Bool) : Nat :=
  (PAGE_PRESENT |||
    (if flags &&& VMM_FLAG_WRITABLE ≠ 0 then PAGE_WRITABLE else 0) |||
    (if flags &&& VMM_FLAG_USER ≠ 0 then PAGE_USER else 0) |||
    (if flags &&& VMM_FLAG_WRITETHROUGH ≠ 0 then PAGE_WRITETHROUGH else 0) |||
    (if flags &&& VMM_FLAG_NOCACHE ≠ 0 then PAGE_CACHE_DISABLE else 0) |||
    (if flags &&& VMM_FLAG_GLOBAL ≠ 0 then PAGE_GLOBAL else 0) |||
    (if flags &&& VMM_FLAG_HUGE ≠ 0 then PAGE_HUGE else 0)) |||
  (if flags &&& VMM_FLAG_NO_EXECUTE ≠ 0 ∧ nx then PAGE_NO_EXECUTE else 0)

/-- vmm_map_page (vmm.c). -/
def vmm_map_page (s : VMMState) (virt phys flags : Nat) : Bool × VMMState :=
  if virt = 0 ∨ phys = 0 then (false, s)
  else map_page_internal s s.current_pml4 virt phys (vmm_hw_flags flags s.using_nx)

/-- vmm_unmap_page (vmm.c). -/
def vmm_unmap_page (s : VMMState) (virt0 : Nat) : Bool × VMMState :=
  if virt0 = 0 then (false, s) else
  let virt := virt0 &&& PAGE_ADDR_MASK
  let i4 := PML4_INDEX virt
  let i3 := PDPT_INDEX virt
  let i2 := PD_INDEX virt
  let i1 := PT_INDEX virt
  if s.current_pml4 = 0 ∨ (s.mem s.current_pml4 i4) &&& PAGE_PRESENT = 0 then (false, s) else
  let pdpt_base := entAddr (s.mem s.current_pml4 i4)
  if pdpt_base = 0 ∨ (s.mem pdpt_base i3) &&& PAGE_PRESENT = 0 then (false, s) else
  if (s.mem pdpt_base i3) &&& PAGE_HUGE ≠ 0 then
    (true, { s with mem := mwrite s.mem pdpt_base i3 0 })
  else
  let pd_base := entAddr (s.mem pdpt_base i3)
  if pd_base = 0 ∨ (s.mem pd_base i2) &&& PAGE_PRESENT = 0 then (false, s) else
  if (s.mem pd_base i2) &&& PAGE_HUGE ≠ 0 then
    (true, { s with mem := mwrite s.mem pd_base i2 0 })
  else
  let pt_base := entAddr (s.mem pd_base i2)
  if pt_base = 0 ∨ (s.mem pt_base i1) &&& PAGE_PRESENT = 0 then (false, s) else
  (true, { s with mem := mwrite s.mem pt_base i1 0 })

/-- virt_to_phys (vmm.c): HHDM short-circuit, then a table walk that
returns 0 when unmapped.  Note the C applies PAGE_ADDR_MASK (which keeps
bit 63) to the leaf entry. -/
def virt_to_phys (s : VMMState) (addr : Nat) : Nat :=
  if addr ≥ s.hhdm_offset then addr - s.hhdm_offset else
  let i4 := PML4_INDEX addr
  let i3 := PDPT_INDEX addr
  let i2 := PD_INDEX addr
  let i1 := PT_INDEX addr
  if s.current_pml4 = 0 ∨ (s.mem s.current_pml4 i4) &&& PAGE_PRESENT = 0 then 0 else
  let pdpt_base := entAddr (s.mem s.current_pml4 i4)
  if pdpt_base = 0 ∨ (s.mem pdpt_base i3) &&& PAGE_PRESENT = 0 then 0 else
  if (s.mem pdpt_base i3) &&& PAGE_HUGE ≠ 0 then
    entAddr (s.mem pdpt_base i3) + (addr &&& 0x3FFFFFFF)
  else
  let pd_base := entAddr (s.mem pdpt_base i3)
  if pd_base = 0 ∨ (s.mem pd_base i2) &&& PAGE_PRESENT = 0 then 0 else
  if (s.mem pd_base i2) &&& PAGE_HUGE ≠ 0 then
    entAddr (s.mem pd_base i2) + (addr &&& 0x1FFFFF)
  else
  let pt_base := entAddr (s.mem pd_base i2)
  if pt_base = 0 ∨ (s.mem pt_base i1) &&& PAGE_PRESENT = 0 then 0 else
  entAddr (s.mem pt_base i1) + (addr &&& 0xFFF)

/-- vmm_get_physical_address (vmm.c). -/
def vmm_get_physical_address (s : VMMState) (virt : Nat) : Nat :=
  virt_to_phys s virt

/-- vmm_is_mapped (vmm.c): returns true for ANY address at or above the
HHDM offset, otherwise walks the tables. -/
def vmm_is_mapped (s : VMMState) (addr : Nat) : Bool :=
  if addr ≥ s.hhdm_offset then true else
  let i4 := PML4_INDEX addr
  let i3 := PDPT_INDEX addr
  let i2 := PD_INDEX addr
  let i1 := PT_INDEX addr
  if s.current_pml4 = 0 ∨ (s.mem s.current_pml4 i4) &&& PAGE_PRESENT = 0 then false else
  let pdpt_base := entAddr (s.mem s.current_pml4 i4)
  if pdpt_base = 0 ∨ (s.mem pdpt_base i3) &&& PAGE_PRESENT = 0 then false else
  if (s.mem pdpt_base i3) &&& PAGE_HUGE ≠ 0 then true else
  let pd_base := entAddr (s.mem pdpt_base i3)
  if pd_base = 0 ∨ (s.mem pd_base i2) &&& PAGE_PRESENT = 0 then false else
  if (s.mem pd_base i2) &&& PAGE_HUGE ≠ 0 then true else
  let pt_base := entAddr (s.mem pd_base i2)
  if pt_base = 0 ∨ (s.mem pt_base i1) &&& PAGE_PRESENT = 0 then false else
  true

/-- The kernel-half copy loop of vmm_create_address_space: for i in
256..511, new_pml4[i] = src_pml4[i].  The loop writes only to the `dst`
frame and reads only the `src` frame, so its effect is this single
pointwise update of the `dst` table. -/
def copyKernelHalf (m : Mem) (src dst : Nat) : Mem :=
  mset m dst (fun i => if 256 ≤ i ∧ i < 512 then m src i else m dst i)

/-- vmm_create_address_space (vmm.c). -/
def vmm_create_address_space (s : VMMState) : Option (Nat × VMMState) :=
  match create_page_table s with
  | none => none
  | some (pml4_phys, s1) =>
      some (pml4_phys, { s1 with mem := copyKernelHalf s1.mem s.current_pml4 pml4_phys })

/-- vmm_delete_address_space (vmm.c): frees the lower-half page-table
frames (PTs, PDs, PDPTs) and the PML4 itself.  Leaf data frames are NOT
freed by this function. -/
def vmm_delete_address_space (s : VMMState) (pml4_phys : Nat) : VMMState :=
  if pml4_phys = 0 ∨ pml4_phys = s.current_pml4 then s else
  let pmm1 := (List.range 256).foldl
    (fun pm i4 =>
      let e4 := s.mem pml4_phys i4
      if e4 &&& PAGE_PRESENT ≠ 0 then
        let pdpt := entAddr e4
        let pm := (List.range 512).foldl
          (fun pm i3 =>
            let e3 := s.mem pdpt i3
            if e3 &&& PAGE_PRESENT ≠ 0 ∧ e3 &&& PAGE_HUGE = 0 then
              let pd := entAddr e3
              let pm := (List.range 512).foldl
                (fun pm i2 =>
                  let e2 := s.mem pd i2
                  if e2 &&& PAGE_PRESENT ≠ 0 ∧ e2 &&& PAGE_HUGE = 0 then
                    pmm_free_page pm (entAddr e2)
                  else pm)
                pm
              pmm_free_page pm pd
            else pm)
          pm
        pmm_free_page pm pdpt
      else pm)
    s.pmm
  { s with pmm := pmm_free_page pmm1 pml4_phys }

/-- vmm_switch_address_space (vmm.c). -/
def vmm_switch_address_space (s : VMMState) (pml4_phys : Nat) : VMMState :=
  if pml4_phys = 0 ∨ pml4_phys = s.current_pml4 then s
  else { s with current_pml4 := pml4_phys }

/-- vmm_get_current_address_space (vmm.c). -/
def vmm_get_current_address_space (s : VMMState) : Nat := s.current_pml4

/-- The cleanup loop used by vmm_map_pages on failure: unmap pages j <
n at 4 KiB stride (return values ignored). -/
def vmm_unmap_range (s : VMMState) (virt n stride : Nat) : VMMState :=
  (List.range n).foldl (fun st j => (vmm_unmap_page st (virt + j * stride)).2) s

/-- The regular 4 KiB loop of vmm_map_pages: page `i` of `fuel`
remaining; on failure unmaps pages 0..i-1 and reports false. -/
def map_loop_4k (virt phys flags : Nat) : Nat → Nat → VMMState → Bool × VMMState
  | _, 0, s => (true, s)
  | i, fuel + 1, s =>
      let r := vmm_map_page s (virt + i * 4096) (phys + i * 4096) flags
      if r.1 then map_loop_4k virt phys flags (i + 1) fuel r.2
      else (false, vmm_unmap_range r.2 virt i 4096)

/-- The 2 MiB loop of vmm_map_pages. -/
def map_loop_2m (virt phys flags : Nat) : Nat → Nat → VMMState → Bool × VMMState
  | _, 0, s => (true, s)
  | i, fuel + 1, s =>
      let r := vmm_map_page s (virt + i * 0x200000) (phys + i * 0x200000) flags
      if r.1 then map_loop_2m virt phys flags (i + 1) fuel r.2
      else (false, vmm_unmap_range r.2 virt i 0x200000)

/-- ~VMM_FLAG_HUGE on uint64. -/
def NOT_HUGE_MASK : Nat := 0xFFFFFFFFFFFFFF7F

/-- vmm_map_pages (vmm.c). -/
def vmm_map_pages (s : VMMState) (virt phys count flags : Nat) : Bool × VMMState :=
  if flags &&& VMM_FLAG_HUGE ≠ 0 ∧ virt &&& 0x1FFFFF = 0 ∧ phys &&& 0x1FFFFF = 0 ∧
      count ≥ 512 then
    let huge_pages := count / 512
    let remaining := count % 512
    let r := map_loop_2m virt phys flags 0 huge_pages s
    if r.1 then
      if remaining > 0 then
        let start_virt := virt + huge_pages * 0x200000
        let start_phys := phys + huge_pages * 0x200000
        let r2 := map_loop_4k start_virt start_phys (flags &&& NOT_HUGE_MASK) 0 remaining r.2
        if r2.1 then (true, r2.2)
        else (false, vmm_unmap_range r2.2 virt huge_pages 0x200000)
      else (true, r.2)
    else r
  else
    map_loop_4k virt phys (flags &&& NOT_HUGE_MASK) 0 count s

/-! ## Bit-level helper lemmas -/

theorem and_two_pow_ne_zero (x i : Nat) : x &&& 2 ^ i ≠ 0 ↔ x.testBit i := by
  rw [Nat.and_two_pow]
  cases h : x.testBit i <;> simp

theorem and_one_ne_zero (x : Nat) : x &&& 1 ≠ 0 ↔ x.testBit 0 := by
  have h := and_two_pow_ne_zero x 0
  rw [pow_zero] at h
  exact h

theorem and_low12_eq_mod (x : Nat) : x &&& 0xFFF = x % 4096 := by
  have h : (0xFFF : Nat) = 2 ^ 12 - 1 := by decide
  refine Nat.eq_of_testBit_eq fun i => ?_
  rw [Nat.testBit_land, h, Nat.testBit_two_pow_sub_one]
  have h2 : (4096 : Nat) = 2 ^ 12 := by decide
  rw [h2, Nat.testBit_mod_two_pow]
  exact Bool.and_comm _ _

/-- Bits of a 4096-aligned value below 12 are clear. -/
theorem testBit_of_aligned {f : Nat} (hf : f % 4096 = 0) {i : Nat} (hi : i < 12) :
    f.testBit i = false := by
  have h2 : (4096 : Nat) = 2 ^ 12 := by decide
  have h3 := Nat.testBit_mod_two_pow f 12 i
  rw [← h2, hf] at h3
  simp [hi] at h3
  exact h3

theorem testBit_mask {i : Nat} :
    PAGE_ADDR_MASK.testBit i = (decide (12 ≤ i) && decide (i < 64)) := by
  have h : PAGE_ADDR_MASK = (2 ^ 52 - 1) <<< 12 := by decide
  rw [h, Nat.testBit_shiftLeft, Nat.testBit_two_pow_sub_one]
  rcases Nat.lt_or_ge i 12 with hlt | hge
  · simp [Nat.not_le_of_lt hlt, hlt]
  · have h64 : i - 12 < 52 ↔ i < 64 := by omega
    simp [hge, h64]

/-- entAddr of an aligned frame address with small OR-ed flag bits
recovers the frame address. -/
theorem entAddr_lor_small {f s : Nat} (hf : f % 4096 = 0) (hf64 : f < 2 ^ 64)
    (hs : s < 4096) : entAddr (f ||| s) = f := by
  refine Nat.eq_of_testBit_eq fun i => ?_
  rw [entAddr, Nat.testBit_land, Nat.testBit_lor, testBit_mask]
  rcases Nat.lt_or_ge i 12 with hlt | hge
  · have hfi := testBit_of_aligned hf hlt
    simp [hfi, Nat.not_le_of_lt hlt]
  · have hsi : s.testBit i = false := by
      refine Nat.testBit_eq_false_of_lt (Nat.lt_of_lt_of_le hs ?_)
      calc (4096 : Nat) = 2 ^ 12 := by decide
        _ ≤ 2 ^ i := Nat.pow_le_pow_right (by decide) hge
    rcases Nat.lt_or_ge i 64 with h64 | h64
    · simp [hsi, hge, h64]
    · have hfi : f.testBit i = false := by
        refine Nat.testBit_eq_false_of_lt (Nat.lt_of_lt_of_le hf64 ?_)
        exact Nat.pow_le_pow_right (by decide) h64
      simp [hsi, hfi, Nat.not_lt_of_le h64]

/-- A 4096-aligned value OR small bits is not bit-7 (huge) set. -/
theorem lor_small_testBit_low {f s i : Nat} (hf : f % 4096 = 0) (hi : i < 12) :
    (f ||| s).testBit i = s.testBit i := by
  rw [Nat.testBit_lor, testBit_of_aligned hf hi, Bool.false_or]

/-! ## Reads over written memory -/

theorem mset_same (m : Mem) (p : Nat) (t : PTable) : (mset m p t) p = t := by
  simp [mset]

theorem mset_other (m : Mem) (p : Nat) (t : PTable) {q : Nat} (h : q ≠ p) :
    (mset m p t) q = m q := by
  simp [mset, h]

/-! ## The kernel-half copy of vmm_create_address_space (Claim C6) -/

/-- Claim C6: a successful create_address_space() returns a fresh PML4
whose entries 256-511 equal the corresponding entries of the current
PML4 at creation time, and whose entries 0-255 are zero.  Hypotheses:
the PMM allocation of the new PML4 frame succeeds and returns a nonzero
frame distinct from the current PML4 frame. -/
theorem c6_create_address_space_kernel_half (s : VMMState) (f : Nat) (pmm' : PMMState)
    (halloc : pmm_alloc_page s.pmm = some (f, pmm')) (hf0 : f ≠ 0)
    (hcur : s.current_pml4 ≠ f) :
    ∃ s', vmm_create_address_space s = some (f, s') ∧
      (∀ i, 256 ≤ i → i < 512 → s'.mem f i = s.mem s.current_pml4 i) ∧
      (∀ i, i < 256 → s'.mem f i = 0) := by
  refine ⟨⟨copyKernelHalf (mset s.mem f emptyTable) s.current_pml4 f, pmm',
    s.current_pml4, s.hhdm_offset, s.using_nx⟩, ?_, ?_, ?_⟩
  · rw [vmm_create_address_space, create_page_table, halloc]
    simp [hf0]
  · intro i h1 h2
    show copyKernelHalf (mset s.mem f emptyTable) s.current_pml4 f f i = _
    rw [copyKernelHalf, mset_same]
    rw [if_pos ⟨h1, h2⟩, mset_other _ _ _ hcur]
  · intro i h1
    show copyKernelHalf (mset s.mem f emptyTable) s.current_pml4 f f i = 0
    rw [copyKernelHalf, mset_same]
    rw [if_neg (by omega : ¬(256 ≤ i ∧ i < 512)), mset_same]
    rfl

theorem tset_same (t : PTable) (i v : Nat) : (tset t i v) i = v := by
  simp [tset]

theorem tset_other (t : PTable) (i v : Nat) {j : Nat} (h : j ≠ i) :
    (tset t i v) j = t j := by
  simp [tset, h]

theorem mwrite_frame_same (m : Mem) (p i v : Nat) :
    (mwrite m p i v) p = tset (m p) i v := by
  simp [mwrite, mset]

theorem mwrite_frame_other (m : Mem) (p i v : Nat) {q : Nat} (h : q ≠ p) :
    (mwrite m p i v) q = m q := by
  simp [mwrite, mset, h]

/-! ## testBit of the flag constants -/

theorem tb_one (i : Nat) : Nat.testBit 1 i = decide (i = 0) := by
  rw [show (1 : Nat) = 2 ^ 0 by norm_num, Nat.testBit_two_pow]
  simp [eq_comm]

theorem tb_two (i : Nat) : Nat.testBit 2 i = decide (i = 1) := by
  rw [show (2 : Nat) = 2 ^ 1 by norm_num, Nat.testBit_two_pow]
  simp [eq_comm]

theorem tb_three (i : Nat) : Nat.testBit 3 i = decide (i = 0 ∨ i = 1) := by
  have h : (3 : Nat) = 1 ||| 2 := by decide
  rw [h, Nat.testBit_lor, tb_one, tb_two]
  by_cases h0 : i = 0 <;> by_cases h1 : i = 1 <;> simp [h0, h1]

theorem tb_four (i : Nat) : Nat.testBit 4 i = decide (i = 2) := by
  rw [show (4 : Nat) = 2 ^ 2 by norm_num, Nat.testBit_two_pow]
  simp [eq_comm]

theorem tb_seven (i : Nat) : Nat.testBit 7 i = decide (i = 0 ∨ i = 1 ∨ i = 2) := by
  have h : (7 : Nat) = 3 ||| 4 := by decide
  rw [h, Nat.testBit_lor, tb_three, tb_four]
  by_cases h0 : i = 0 <;> by_cases h1 : i = 1 <;> by_cases h2 : i = 2 <;>
    simp [h0, h1, h2]

theorem tb_eight (i : Nat) : Nat.testBit 8 i = decide (i = 3) := by
  rw [show (8 : Nat) = 2 ^ 3 by norm_num, Nat.testBit_two_pow]
  simp [eq_comm]

theorem tb_sixteen (i : Nat) : Nat.testBit 16 i = decide (i = 4) := by
  rw [show (16 : Nat) = 2 ^ 4 by norm_num, Nat.testBit_two_pow]
  simp [eq_comm]

theorem tb_128 (i : Nat) : Nat.testBit 128 i = decide (i = 7) := by
  rw [show (128 : Nat) = 2 ^ 7 by norm_num, Nat.testBit_two_pow]
  simp [eq_comm]

theorem tb_256 (i : Nat) : Nat.testBit 256 i = decide (i = 8) := by
  rw [show (256 : Nat) = 2 ^ 8 by norm_num, Nat.testBit_two_pow]
  simp [eq_comm]

theorem tb_2p63 (i : Nat) : Nat.testBit 9223372036854775808 i = decide (i = 63) := by
  rw [show (9223372036854775808 : Nat) = 2 ^ 63 by norm_num, Nat.testBit_two_pow]
  simp [eq_comm]

/-! ## Bit-level characterisation of the vmm_map_page flag translation -/

/-- Exact bit content of the hardware flags produced by vmm_map_page:
bit 0 (Present) is always set; bit 1 (Writable) iff requested; bit 2
(User) iff requested; bits 3, 4, 8, 7 mirror the corresponding request
bits; bit 63 (NX) iff requested AND the CPU supports NX.  No other bit
is ever set. -/
theorem vmm_hw_flags_testBit (flags : Nat) (nx : Bool) (i : Nat) :
    (vmm_hw_flags flags nx).testBit i =
      ((decide (i = 0)) ||
       (decide (i = 1) && flags.testBit 1) ||
       (decide (i = 2) && flags.testBit 2) ||
       (decide (i = 3) && flags.testBit 3) ||
       (decide (i = 4) && flags.testBit 4) ||
       (decide (i = 8) && flags.testBit 8) ||
       (decide (i = 7) && flags.testBit 7) ||
       (decide (i = 63) && (flags.testBit 63 && nx))) := by
  have h2 : flags &&& VMM_FLAG_WRITABLE ≠ 0 ↔ flags.testBit 1 := by
    have h := and_two_pow_ne_zero flags 1; norm_num at h; exact h
  have h4 : flags &&& VMM_FLAG_USER ≠ 0 ↔ flags.testBit 2 := by
    have h := and_two_pow_ne_zero flags 2; norm_num at h; exact h
  have h8 : flags &&& VMM_FLAG_WRITETHROUGH ≠ 0 ↔ flags.testBit 3 := by
    have h := and_two_pow_ne_zero flags 3; norm_num at h; exact h
  have h16 : flags &&& VMM_FLAG_NOCACHE ≠ 0 ↔ flags.testBit 4 := by
    have h := and_two_pow_ne_zero flags 4; norm_num at h; exact h
  have h256 : flags &&& VMM_FLAG_GLOBAL ≠ 0 ↔ flags.testBit 8 := by
    have h := and_two_pow_ne_zero flags 8; norm_num at h; exact h
  have h128 : flags &&& VMM_FLAG_HUGE ≠ 0 ↔ flags.testBit 7 := by
    have h := and_two_pow_ne_zero flags 7; norm_num at h; exact h
  have h63 : flags &&& VMM_FLAG_NO_EXECUTE ≠ 0 ↔ flags.testBit 63 :=
    and_two_pow_ne_zero flags 63
  simp only [vmm_hw_flags, PAGE_PRESENT, PAGE_WRITABLE, PAGE_USER,
    PAGE_WRITETHROUGH, PAGE_CACHE_DISABLE, PAGE_GLOBAL, PAGE_HUGE,
    PAGE_NO_EXECUTE, Nat.testBit_lor, h2, h4, h8, h16, h256, h128, h63]
  by_cases b1 : flags.testBit 1 <;> by_cases b2 : flags.testBit 2 <;>
    by_cases b3 : flags.testBit 3 <;> by_cases b4 : flags.testBit 4 <;>
    by_cases b8 : flags.testBit 8 <;> by_cases b7 : flags.testBit 7 <;>
    by_cases b63 : flags.testBit 63 <;> cases nx <;>
    simp [b1, b2, b3, b4, b8, b7, b63, tb_one, tb_two, tb_four, tb_eight,
      tb_sixteen, tb_128, tb_256, tb_2p63]

/-- Without an effective NX request the hardware flags fit in the low 12
bits (in fact below 512). -/
theorem vmm_hw_flags_lt {flags : Nat} {nx : Bool}
    (h : ¬(flags &&& VMM_FLAG_NO_EXECUTE ≠ 0 ∧ nx)) :
    vmm_hw_flags flags nx < 4096 := by
  rw [vmm_hw_flags, if_neg h, Nat.or_zero]
  have hb : (4096 : Nat) = 2 ^ 12 := by norm_num
  rw [hb]
  repeat
    refine Nat.or_lt_two_pow ?_ ?_
  all_goals try split
  all_goals norm_num [PAGE_PRESENT, PAGE_WRITABLE, PAGE_USER,
    PAGE_WRITETHROUGH, PAGE_CACHE_DISABLE, PAGE_GLOBAL, PAGE_HUGE]

/-! ## Mapping a page in a fresh (empty) address space -/

theorem entAddr_aligned {v : Nat} (hva : v % 4096 = 0) (hv64 : v < 2 ^ 64) :
    v &&& PAGE_ADDR_MASK = v := by
  have h := entAddr_lor_small (f := v) (s := 0) hva hv64 (by norm_num)
  rw [Nat.or_zero] at h
  exact h

theorem newTableEntry_eq (f v : Nat) :
    newTableEntry f v = f ||| (if v < 0x8000000000000000 then 7 else 3) := by
  rw [newTableEntry]
  by_cases h : v < 0x8000000000000000
  · rw [if_pos h, if_pos h, PAGE_PRESENT, PAGE_WRITABLE, PAGE_USER,
      Nat.lor_assoc, Nat.lor_assoc, show (1 ||| (2 ||| 4) : Nat) = 7 by decide]
  · rw [if_neg h, if_neg h, PAGE_PRESENT, PAGE_WRITABLE, Nat.lor_assoc,
      show (1 ||| 2 : Nat) = 3 by decide]

theorem newTableEntry_entAddr {f : Nat} (v : Nat) (hfa : f % 4096 = 0)
    (hf64 : f < 2 ^ 64) : entAddr (newTableEntry f v) = f := by
  rw [newTableEntry_eq]
  refine entAddr_lor_small hfa hf64 ?_
  split <;> norm_num

theorem newTableEntry_present {f : Nat} (v : Nat) (hfa : f % 4096 = 0) :
    (newTableEntry f v) &&& PAGE_PRESENT ≠ 0 := by
  rw [show PAGE_PRESENT = 1 from rfl]
  rw [and_one_ne_zero, newTableEntry_eq, lor_small_testBit_low hfa (by norm_num)]
  split <;> decide

theorem newTableEntry_not_huge {f : Nat} (v : Nat) (hfa : f % 4096 = 0) :
    (newTableEntry f v) &&& PAGE_HUGE = 0 := by
  have hb : (newTableEntry f v).testBit 7 = false := by
    rw [newTableEntry_eq, lor_small_testBit_low hfa (by norm_num)]
    split <;> decide
  rw [show PAGE_HUGE = 2 ^ 7 from rfl, Nat.and_two_pow, hb]
  simp

theorem hw_flags_testBit0 (flags : Nat) (nx : Bool) :
    (vmm_hw_flags flags nx).testBit 0 = true := by
  have h := vmm_hw_flags_testBit flags nx 0
  simpa using h

theorem hw_flags_testBit7 (flags : Nat) (nx : Bool) :
    (vmm_hw_flags flags nx).testBit 7 = flags.testBit 7 := by
  have h := vmm_hw_flags_testBit flags nx 7
  simpa using h

theorem hw_flags_testBit1 (flags : Nat) (nx : Bool) :
    (vmm_hw_flags flags nx).testBit 1 = flags.testBit 1 := by
  have h := vmm_hw_flags_testBit flags nx 1
  simpa using h

theorem hw_flags_testBit2 (flags : Nat) (nx : Bool) :
    (vmm_hw_flags flags nx).testBit 2 = flags.testBit 2 := by
  have h := vmm_hw_flags_testBit flags nx 2
  simpa using h

theorem hw_flags_testBit63 (flags : Nat) (nx : Bool) :
    (vmm_hw_flags flags nx).testBit 63 = (flags.testBit 63 && nx) := by
  have h := vmm_hw_flags_testBit flags nx 63
  simpa using h

/-- Requested flags without Huge translate to hardware flags without
the huge bit. -/
theorem hw_flags_not_huge {flags : Nat} (nx : Bool)
    (h : flags &&& VMM_FLAG_HUGE = 0) :
    (vmm_hw_flags flags nx) &&& PAGE_HUGE = 0 := by
  have hb7 : flags.testBit 7 = false := by
    by_cases hb : flags.testBit 7
    · have h2 := Nat.and_two_pow flags 7
      rw [show VMM_FLAG_HUGE = 2 ^ 7 from rfl] at h
      rw [h, hb] at h2
      simp at h2
    · simpa using hb
  have hhw : (vmm_hw_flags flags nx).testBit 7 = false := by
    rw [hw_flags_testBit7, hb7]
  rw [show PAGE_HUGE = 2 ^ 7 from rfl, Nat.and_two_pow, hhw]
  simp

/-- The leaf entry written for a 4 KiB page is present. -/
theorem leaf_present {p : Nat} (flags : Nat) (nx : Bool) (hpa : p % 4096 = 0) :
    (p ||| vmm_hw_flags flags nx) &&& PAGE_PRESENT ≠ 0 := by
  rw [show PAGE_PRESENT = 1 from rfl, and_one_ne_zero,
    lor_small_testBit_low hpa (by norm_num), hw_flags_testBit0]

/-- The leaf entry written for a 4 KiB page is not huge. -/
theorem leaf_not_huge {p flags : Nat} (nx : Bool) (hpa : p % 4096 = 0)
    (h : flags &&& VMM_FLAG_HUGE = 0) :
    (p ||| vmm_hw_flags flags nx) &&& PAGE_HUGE = 0 := by
  have hb : (p ||| vmm_hw_flags flags nx).testBit 7 = false := by
    rw [lor_small_testBit_low hpa (by norm_num), hw_flags_testBit7]
    by_cases hb : flags.testBit 7
    · have h2 := Nat.and_two_pow flags 7
      rw [show VMM_FLAG_HUGE = 2 ^ 7 from rfl] at h
      rw [h, hb] at h2
      simp at h2
    · simpa using hb
  rw [show PAGE_HUGE = 2 ^ 7 from rfl, Nat.and_two_pow, hb]
  simp

/-- Address extraction from the 4 KiB leaf entry, when the entry has no
NX bit (the C mask keeps bit 63, so this needs the no-NX side
condition). -/
theorem leaf_entAddr {p flags : Nat} {nx : Bool} (hpa : p % 4096 = 0)
    (hp64 : p < 2 ^ 64) (hnx : ¬(flags &&& VMM_FLAG_NO_EXECUTE ≠ 0 ∧ nx)) :
    entAddr (p ||| vmm_hw_flags flags nx) = p :=
  entAddr_lor_small hpa hp64 (vmm_hw_flags_lt hnx)

/-- ensure_entry when the slot is empty and the PMM allocation
succeeds. -/
theorem ensure_entry_not_present {s : VMMState} {tbl idx virt f : Nat}
    {p' : PMMState} (hent : (s.mem tbl idx) &&& PAGE_PRESENT = 0)
    (halloc : pmm_alloc_page s.pmm = some (f, p')) (hf0 : f ≠ 0) :
    ensure_entry s tbl idx virt =
      some ⟨mwrite (mset s.mem f emptyTable) tbl idx (newTableEntry f virt), p',
        s.current_pml4, s.hhdm_offset, s.using_nx⟩ := by
  rw [ensure_entry, if_pos hent, create_page_table]
  simp only [halloc]
  rw [if_neg hf0]

/-- map_level_pd on an empty PD slot with a successful PT allocation:
installs the PT and writes the 4 KiB leaf. -/
theorem map_level_pd_fresh {s2 : VMMState} {pd_base virt phys flags f : Nat}
    {p' : PMMState} (hhuge : flags &&& PAGE_HUGE = 0)
    (hent : (s2.mem pd_base (PD_INDEX virt)) &&& PAGE_PRESENT = 0)
    (halloc : pmm_alloc_page s2.pmm = some (f, p'))
    (hf0 : f ≠ 0) (hfa : f % 4096 = 0) (hf64 : f < 2 ^ 64) :
    map_level_pd s2 pd_base virt phys flags =
      (true, ⟨mwrite (mwrite (mset s2.mem f emptyTable) pd_base (PD_INDEX virt)
          (newTableEntry f virt)) f (PT_INDEX virt) (phys ||| flags), p',
        s2.current_pml4, s2.hhdm_offset, s2.using_nx⟩) := by
  rw [map_level_pd, if_neg (fun h => h.1 hhuge)]
  simp only [ensure_entry_not_present hent halloc hf0]
  have hr : (mwrite (mset s2.mem f emptyTable) pd_base (PD_INDEX virt)
      (newTableEntry f virt)) pd_base (PD_INDEX virt) = newTableEntry f virt := by
    rw [mwrite_frame_same, tset_same]
  simp only [hr, newTableEntry_entAddr virt hfa hf64, if_neg hf0]

/-- map_level_pdpt on an empty PDPT slot with successful PD and PT
allocations. -/
theorem map_level_pdpt_fresh {s1 : VMMState} {pdpt_base virt phys flags f2 f3 : Nat}
    {p2 p3 : PMMState} (hhuge : flags &&& PAGE_HUGE = 0)
    (hent : (s1.mem pdpt_base (PDPT_INDEX virt)) &&& PAGE_PRESENT = 0)
    (halloc2 : pmm_alloc_page s1.pmm = some (f2, p2))
    (halloc3 : pmm_alloc_page p2 = some (f3, p3))
    (hf20 : f2 ≠ 0) (hf2a : f2 % 4096 = 0) (hf264 : f2 < 2 ^ 64)
    (hf30 : f3 ≠ 0) (hf3a : f3 % 4096 = 0) (hf364 : f3 < 2 ^ 64)
    (hf2d : f2 ≠ pdpt_base) :
    map_level_pdpt s1 pdpt_base virt phys flags =
      (true, ⟨mwrite (mwrite (mset (mwrite (mset s1.mem f2 emptyTable) pdpt_base
          (PDPT_INDEX virt) (newTableEntry f2 virt)) f3 emptyTable) f2
          (PD_INDEX virt) (newTableEntry f3 virt)) f3 (PT_INDEX virt)
          (phys ||| flags), p3,
        s1.current_pml4, s1.hhdm_offset, s1.using_nx⟩) := by
  rw [map_level_pdpt, if_neg (fun h => h.1 hhuge)]
  simp only [ensure_entry_not_present hent halloc2 hf20]
  have hr : (mwrite (mset s1.mem f2 emptyTable) pdpt_base (PDPT_INDEX virt)
      (newTableEntry f2 virt)) pdpt_base (PDPT_INDEX virt) = newTableEntry f2 virt := by
    rw [mwrite_frame_same, tset_same]
  simp only [hr, newTableEntry_entAddr virt hf2a hf264, if_neg hf20]
  have hent2 : ((mwrite (mset s1.mem f2 emptyTable) pdpt_base (PDPT_INDEX virt)
      (newTableEntry f2 virt)) f2 (PD_INDEX virt)) &&& PAGE_PRESENT = 0 := by
    rw [mwrite_frame_other _ _ _ _ hf2d, mset_same]
    rw [show emptyTable (PD_INDEX virt) = 0 from rfl]
    rw [Nat.zero_and]
  exact map_level_pd_fresh hhuge hent2 halloc3 hf30 hf3a hf364

/-- vmm_map_page in a fresh address space: the current PML4 is an
all-zero table, the next three PMM allocations succeed and return
distinct, aligned, nonzero frames different from the PML4 frame, the
virtual and physical addresses are nonzero, page-aligned 64-bit values,
and Huge is not requested.  The call succeeds, consuming exactly the
three frames for the PDPT, PD and PT, and installs
phys | hw_flags as the PT leaf. -/
theorem vmm_map_page_fresh {s : VMMState} {v p flags f1 f2 f3 : Nat}
    {p1 p2 p3 : PMMState}
    (hBtable : s.mem s.current_pml4 = emptyTable) (hB0 : s.current_pml4 ≠ 0)
    (halloc1 : pmm_alloc_page s.pmm = some (f1, p1))
    (halloc2 : pmm_alloc_page p1 = some (f2, p2))
    (halloc3 : pmm_alloc_page p2 = some (f3, p3))
    (hf10 : f1 ≠ 0) (hf1a : f1 % 4096 = 0) (hf164 : f1 < 2 ^ 64)
    (hf20 : f2 ≠ 0) (hf2a : f2 % 4096 = 0) (hf264 : f2 < 2 ^ 64)
    (hf30 : f3 ≠ 0) (hf3a : f3 % 4096 = 0) (hf364 : f3 < 2 ^ 64)
    (hf1B : f1 ≠ s.current_pml4) (hf21 : f2 ≠ f1)
    (hv0 : v ≠ 0) (hva : v % 4096 = 0) (hv64 : v < 2 ^ 64)
    (hp0 : p ≠ 0) (hpa : p % 4096 = 0) (hp64 : p < 2 ^ 64)
    (hhuge : flags &&& VMM_FLAG_HUGE = 0) :
    vmm_map_page s v p flags =
      (true, ⟨mwrite (mwrite (mset (mwrite (mset (mwrite (mset s.mem f1 emptyTable)
          s.current_pml4 (PML4_INDEX v) (newTableEntry f1 v)) f2 emptyTable) f1
          (PDPT_INDEX v) (newTableEntry f2 v)) f3 emptyTable) f2
          (PD_INDEX v) (newTableEntry f3 v)) f3 (PT_INDEX v)
          (p ||| vmm_hw_flags flags s.using_nx), p3,
        s.current_pml4, s.hhdm_offset, s.using_nx⟩) := by
  rw [vmm_map_page, if_neg (by push_neg; exact ⟨hv0, hp0⟩),
    map_page_internal, if_neg (by push_neg; exact ⟨hB0, hv0, hp0⟩),
    entAddr_aligned hva hv64, entAddr_aligned hpa hp64, map_page_aligned]
  have hent1 : (s.mem s.current_pml4 (PML4_INDEX v)) &&& PAGE_PRESENT = 0 := by
    rw [hBtable, show emptyTable (PML4_INDEX v) = 0 from rfl, Nat.zero_and]
  simp only [ensure_entry_not_present hent1 halloc1 hf10]
  have hr : (mwrite (mset s.mem f1 emptyTable) s.current_pml4 (PML4_INDEX v)
      (newTableEntry f1 v)) s.current_pml4 (PML4_INDEX v) = newTableEntry f1 v := by
    rw [mwrite_frame_same, tset_same]
  simp only [hr, newTableEntry_entAddr v hf1a hf164, if_neg hf10]
  have hhw : (vmm_hw_flags flags s.using_nx) &&& PAGE_HUGE = 0 :=
    hw_flags_not_huge s.using_nx hhuge
  have hent2 : ((mwrite (mset s.mem f1 emptyTable) s.current_pml4 (PML4_INDEX v)
      (newTableEntry f1 v)) f1 (PDPT_INDEX v)) &&& PAGE_PRESENT = 0 := by
    rw [mwrite_frame_other _ _ _ _ hf1B, mset_same,
      show emptyTable (PDPT_INDEX v) = 0 from rfl, Nat.zero_and]
  exact map_level_pdpt_fresh hhw hent2 halloc2 halloc3 hf20 hf2a hf264 hf30 hf3a
    hf364 hf21

/-! ### Claim C1 -/

/-- Claim C1 (amended): for a successful 4 KiB map_page(v, p, flags) in
a fresh address space with v BELOW the HHDM offset and an NX-free leaf
(no NO_EXECUTE request, or NX unsupported): physical_of(v) = p and
is_mapped(v) = true after the map, and after a matching unmap_page(v),
is_mapped(v) = false.  (The claim fails as stated for v at or above the
HHDM offset, and physical_of also fails for NX leaves; see the
counterexample.) -/
theorem c1_map_then_unmap_below_hhdm {s : VMMState} {v p flags f1 f2 f3 : Nat}
    {p1 p2 p3 : PMMState}
    (hBtable : s.mem s.current_pml4 = emptyTable) (hB0 : s.current_pml4 ≠ 0)
    (halloc1 : pmm_alloc_page s.pmm = some (f1, p1))
    (halloc2 : pmm_alloc_page p1 = some (f2, p2))
    (halloc3 : pmm_alloc_page p2 = some (f3, p3))
    (hf10 : f1 ≠ 0) (hf1a : f1 % 4096 = 0) (hf164 : f1 < 2 ^ 64)
    (hf20 : f2 ≠ 0) (hf2a : f2 % 4096 = 0) (hf264 : f2 < 2 ^ 64)
    (hf30 : f3 ≠ 0) (hf3a : f3 % 4096 = 0) (hf364 : f3 < 2 ^ 64)
    (hBf1 : s.current_pml4 ≠ f1) (hBf2 : s.current_pml4 ≠ f2)
    (hBf3 : s.current_pml4 ≠ f3) (hf12 : f1 ≠ f2) (hf13 : f1 ≠ f3)
    (hf23 : f2 ≠ f3)
    (hv0 : v ≠ 0) (hva : v % 4096 = 0) (hv64 : v < 2 ^ 64)
    (hp0 : p ≠ 0) (hpa : p % 4096 = 0) (hp64 : p < 2 ^ 64)
    (hhuge : flags &&& VMM_FLAG_HUGE = 0)
    (hvh : v < s.hhdm_offset)
    (hnx : ¬(flags &&& VMM_FLAG_NO_EXECUTE ≠ 0 ∧ s.using_nx)) :
    (vmm_map_page s v p flags).1 = true ∧
    vmm_get_physical_address (vmm_map_page s v p flags).2 v = p ∧
    vmm_is_mapped (vmm_map_page s v p flags).2 v = true ∧
    (vmm_unmap_page (vmm_map_page s v p flags).2 v).1 = true ∧
    vmm_is_mapped (vmm_unmap_page (vmm_map_page s v p flags).2 v).2 v = false := by
  have hmap := vmm_map_page_fresh hBtable hB0 halloc1 halloc2 halloc3
    hf10 hf1a hf164 hf20 hf2a hf264 hf30 hf3a hf364 hBf1.symm hf12.symm
    hv0 hva hv64 hp0 hpa hp64 hhuge
  rw [hmap]
  set B := s.current_pml4 with hBdef
  set E1 := newTableEntry f1 v with hE1
  set E2 := newTableEntry f2 v with hE2
  set E3 := newTableEntry f3 v with hE3
  set leaf := p ||| vmm_hw_flags flags s.using_nx with hleaf
  set V : Mem := mset s.mem f1 emptyTable with hV
  set U : Mem := mwrite V B (PML4_INDEX v) E1 with hU
  set W : Mem := mset U f2 emptyTable with hW
  set Z : Mem := mwrite W f1 (PDPT_INDEX v) E2 with hZ
  set Y : Mem := mset Z f3 emptyTable with hY
  set X : Mem := mwrite Y f2 (PD_INDEX v) E3 with hX
  set M : Mem := mwrite X f3 (PT_INDEX v) leaf with hM
  have hMB : M B = tset emptyTable (PML4_INDEX v) E1 := by
    rw [hM, mwrite_frame_other _ _ _ _ hBf3, hX,
      mwrite_frame_other _ _ _ _ hBf2, hY, mset_other _ _ _ hBf3, hZ,
      mwrite_frame_other _ _ _ _ hBf1, hW, mset_other _ _ _ hBf2, hU,
      mwrite_frame_same, hV, mset_other _ _ _ hBf1, hBtable]
  have hMf1 : M f1 = tset emptyTable (PDPT_INDEX v) E2 := by
    rw [hM, mwrite_frame_other _ _ _ _ hf13, hX,
      mwrite_frame_other _ _ _ _ hf12, hY, mset_other _ _ _ hf13, hZ,
      mwrite_frame_same, hW, mset_other _ _ _ hf12, hU,
      mwrite_frame_other _ _ _ _ hBf1.symm, hV, mset_same]
  have hMf2 : M f2 = tset emptyTable (PD_INDEX v) E3 := by
    rw [hM, mwrite_frame_other _ _ _ _ hf23, hX, mwrite_frame_same, hY,
      mset_other _ _ _ hf23, hZ, mwrite_frame_other _ _ _ _ hf12.symm, hW,
      mset_same]
  have hMf3 : M f3 = tset emptyTable (PT_INDEX v) leaf := by
    rw [hM, mwrite_frame_same, hX, mwrite_frame_other _ _ _ _ hf23.symm, hY,
      mset_same]
  have hMBi : M B (PML4_INDEX v) = E1 := by rw [hMB, tset_same]
  have hMf1i : M f1 (PDPT_INDEX v) = E2 := by rw [hMf1, tset_same]
  have hMf2i : M f2 (PD_INDEX v) = E3 := by rw [hMf2, tset_same]
  have hMf3i : M f3 (PT_INDEX v) = leaf := by rw [hMf3, tset_same]
  have hE1p : E1 &&& PAGE_PRESENT ≠ 0 := newTableEntry_present v hf1a
  have hE2p : E2 &&& PAGE_PRESENT ≠ 0 := newTableEntry_present v hf2a
  have hE3p : E3 &&& PAGE_PRESENT ≠ 0 := newTableEntry_present v hf3a
  have hE1a : entAddr E1 = f1 := newTableEntry_entAddr v hf1a hf164
  have hE2a : entAddr E2 = f2 := newTableEntry_entAddr v hf2a hf264
  have hE3a : entAddr E3 = f3 := newTableEntry_entAddr v hf3a hf364
  have hE2h : ¬(E2 &&& PAGE_HUGE ≠ 0) := by
    simpa using newTableEntry_not_huge v hf2a
  have hE3h : ¬(E3 &&& PAGE_HUGE ≠ 0) := by
    simpa using newTableEntry_not_huge v hf3a
  have hlp : leaf &&& PAGE_PRESENT ≠ 0 := leaf_present flags s.using_nx hpa
  have hla : entAddr leaf = p := leaf_entAddr hpa hp64 hnx
  have hnge : ¬(v ≥ s.hhdm_offset) := Nat.not_le_of_lt hvh
  refine ⟨rfl, ?_, ?_, ?_, ?_⟩
  · show virt_to_phys _ v = p
    rw [virt_to_phys]
    simp only [hMBi, hMf1i, hMf2i, hMf3i, hE1a, hE2a, hE3a]
    rw [if_neg hnge, if_neg (by push_neg; exact ⟨hB0, hE1p⟩),
      if_neg (by push_neg; exact ⟨hf10, hE2p⟩), if_neg hE2h,
      if_neg (by push_neg; exact ⟨hf20, hE3p⟩), if_neg hE3h,
      if_neg (by push_neg; exact ⟨hf30, hlp⟩), hla, and_low12_eq_mod, hva,
      Nat.add_zero]
  · show vmm_is_mapped _ v = true
    rw [vmm_is_mapped]
    simp only [hMBi, hMf1i, hMf2i, hMf3i, hE1a, hE2a, hE3a]
    rw [if_neg hnge, if_neg (by push_neg; exact ⟨hB0, hE1p⟩),
      if_neg (by push_neg; exact ⟨hf10, hE2p⟩), if_neg hE2h,
      if_neg (by push_neg; exact ⟨hf20, hE3p⟩), if_neg hE3h,
      if_neg (by push_neg; exact ⟨hf30, hlp⟩)]
  · show (vmm_unmap_page _ v).1 = true
    rw [vmm_unmap_page, if_neg hv0]
    simp only [entAddr_aligned hva hv64, hMBi, hMf1i, hMf2i, hMf3i, hE1a, hE2a,
      hE3a]
    rw [if_neg (by push_neg; exact ⟨hB0, hE1p⟩),
      if_neg (by push_neg; exact ⟨hf10, hE2p⟩), if_neg hE2h,
      if_neg (by push_neg; exact ⟨hf20, hE3p⟩), if_neg hE3h,
      if_neg (by push_neg; exact ⟨hf30, hlp⟩)]
  · show vmm_is_mapped _ v = false
    have hunm : (vmm_unmap_page ⟨M, p3, B, s.hhdm_offset, s.using_nx⟩ v) =
        (true, ⟨mwrite M f3 (PT_INDEX v) 0, p3, B, s.hhdm_offset, s.using_nx⟩) := by
      rw [vmm_unmap_page, if_neg hv0]
      simp only [entAddr_aligned hva hv64, hMBi, hMf1i, hMf2i, hMf3i, hE1a, hE2a,
        hE3a]
      rw [if_neg (by push_neg; exact ⟨hB0, hE1p⟩),
        if_neg (by push_neg; exact ⟨hf10, hE2p⟩), if_neg hE2h,
        if_neg (by push_neg; exact ⟨hf20, hE3p⟩), if_neg hE3h,
        if_neg (by push_neg; exact ⟨hf30, hlp⟩)]
    rw [hunm]
    have hM'B : (mwrite M f3 (PT_INDEX v) 0) B (PML4_INDEX v) = E1 := by
      rw [mwrite_frame_other _ _ _ _ hBf3, hMBi]
    have hM'f1 : (mwrite M f3 (PT_INDEX v) 0) f1 (PDPT_INDEX v) = E2 := by
      rw [mwrite_frame_other _ _ _ _ hf13, hMf1i]
    have hM'f2 : (mwrite M f3 (PT_INDEX v) 0) f2 (PD_INDEX v) = E3 := by
      rw [mwrite_frame_other _ _ _ _ hf23, hMf2i]
    have hM'f3 : (mwrite M f3 (PT_INDEX v) 0) f3 (PT_INDEX v) = 0 := by
      rw [mwrite_frame_same, tset_same]
    rw [vmm_is_mapped]
    simp only [hM'B, hM'f1, hM'f2, hM'f3, hE1a, hE2a, hE3a]
    rw [if_neg hnge, if_neg (by push_neg; exact ⟨hB0, hE1p⟩),
      if_neg (by push_neg; exact ⟨hf10, hE2p⟩), if_neg hE2h,
      if_neg (by push_neg; exact ⟨hf20, hE3p⟩), if_neg hE3h,
      if_pos (Or.inr (by rw [Nat.zero_and]))]

/-- A concrete state used by witnesses: a zero physical memory, a small
fully-free PMM, the current PML4 at 0x3000, the HHDM at
0xFFFF800000000000, NX supported. -/
def wState : VMMState :=
  { mem := fun _ => emptyTable
    pmm := { bitmap := 0, kernel_start := 0x100000, max_pages := 16,
             kernel_end := 0x110000 }
    current_pml4 := 0x3000
    hhdm_offset := 0xFFFF800000000000
    using_nx := true }

theorem c1_witness :
    (vmm_map_page wState 0x400000 0x5000 3).1 = true ∧
    vmm_get_physical_address (vmm_map_page wState 0x400000 0x5000 3).2 0x400000 =
      0x5000 ∧
    vmm_is_mapped (vmm_map_page wState 0x400000 0x5000 3).2 0x400000 = true ∧
    (vmm_unmap_page (vmm_map_page wState 0x400000 0x5000 3).2 0x400000).1 = true ∧
    vmm_is_mapped
      (vmm_unmap_page (vmm_map_page wState 0x400000 0x5000 3).2 0x400000).2
      0x400000 = false :=
  @c1_map_then_unmap_below_hhdm wState 0x400000 0x5000 3 0x100000 0x101000
    0x102000 ⟨1, 0x100000, 16, 0x110000⟩ ⟨3, 0x100000, 16, 0x110000⟩
    ⟨7, 0x100000, 16, 0x110000⟩
    rfl (by decide) (by decide) (by decide) (by decide) (by decide) (by decide)
    (by decide) (by decide) (by decide) (by decide) (by decide) (by decide)
    (by decide) (by decide) (by decide) (by decide) (by decide) (by decide)
    (by decide) (by decide) (by decide) (by decide) (by decide)
    (by decide) (by decide) (by decide) (by decide) (by decide)

/-- The HHDM-range scenario of the counterexample: map the page at
virtual address = HHDM offset to physical 0x5000, then unmap it. -/
def c1x_m1 : Bool × VMMState := vmm_map_page wState 0xFFFF800000000000 0x5000 3

def c1x_u1 : Bool × VMMState := vmm_unmap_page c1x_m1.2 0xFFFF800000000000

/-- The NX scenario of the counterexample: map with
PRESENT | NO_EXECUTE on a CPU with NX. -/
def c1x_m2 : Bool × VMMState := vmm_map_page wState 0x400000 0x5000 (1 + 2 ^ 63)

/-- Claim C1 is false as stated: (a) for v = HHDM offset the map
succeeds but physical_of(v) returns 0 (the HHDM short-circuit), not the
mapped 0x5000, and after a successful unmap is_mapped(v) is still true;
(b) below the HHDM, an NX leaf makes physical_of return p + 2^63
because the C address mask keeps bit 63. -/
theorem c1_counterexample :
    c1x_m1.1 = true ∧
    vmm_get_physical_address c1x_m1.2 0xFFFF800000000000 = 0 ∧
    (0 : Nat) ≠ 0x5000 ∧
    c1x_u1.1 = true ∧
    vmm_is_mapped c1x_u1.2 0xFFFF800000000000 = true ∧
    c1x_m2.1 = true ∧
    vmm_get_physical_address c1x_m2.2 0x400000 = 0x5000 + 2 ^ 63 := by
  refine ⟨by decide, by decide, by decide, by decide, by decide, by decide,
    by decide⟩

/-! ### Claim C2 -/

/-- Claim C2 (amended): the leaf installed by map_page is writable iff
the caller requested Writable, and has NX iff the caller requested
NO_EXECUTE and the CPU supports NX.  Hence the page is
writable-and-executable exactly when Writable was requested and either
NO_EXECUTE was not requested or NX is unsupported: W xor X is NOT
enforced at map time unless the caller opts in. -/
theorem c2_leaf_wx_characterisation {s : VMMState} {v p flags f1 f2 f3 : Nat}
    {p1 p2 p3 : PMMState}
    (hBtable : s.mem s.current_pml4 = emptyTable) (hB0 : s.current_pml4 ≠ 0)
    (halloc1 : pmm_alloc_page s.pmm = some (f1, p1))
    (halloc2 : pmm_alloc_page p1 = some (f2, p2))
    (halloc3 : pmm_alloc_page p2 = some (f3, p3))
    (hf10 : f1 ≠ 0) (hf1a : f1 % 4096 = 0) (hf164 : f1 < 2 ^ 64)
    (hf20 : f2 ≠ 0) (hf2a : f2 % 4096 = 0) (hf264 : f2 < 2 ^ 64)
    (hf30 : f3 ≠ 0) (hf3a : f3 % 4096 = 0) (hf364 : f3 < 2 ^ 64)
    (hBf1 : s.current_pml4 ≠ f1) (hf12 : f1 ≠ f2)
    (hv0 : v ≠ 0) (hva : v % 4096 = 0) (hv64 : v < 2 ^ 64)
    (hp0 : p ≠ 0) (hpa : p % 4096 = 0) (hp63 : p < 2 ^ 63)
    (hhuge : flags &&& VMM_FLAG_HUGE = 0) :
    (vmm_map_page s v p flags).1 = true ∧
    ((vmm_map_page s v p flags).2.mem f3 (PT_INDEX v)).testBit 0 = true ∧
    ((vmm_map_page s v p flags).2.mem f3 (PT_INDEX v)).testBit 1 =
      flags.testBit 1 ∧
    ((vmm_map_page s v p flags).2.mem f3 (PT_INDEX v)).testBit 63 =
      (flags.testBit 63 && s.using_nx) ∧
    (((vmm_map_page s v p flags).2.mem f3 (PT_INDEX v)).testBit 1 = true ∧
      ((vmm_map_page s v p flags).2.mem f3 (PT_INDEX v)).testBit 63 = false ↔
      flags.testBit 1 = true ∧
        (flags.testBit 63 = false ∨ s.using_nx = false)) := by
  have hp64 : p < 2 ^ 64 := lt_trans hp63 (by norm_num)
  have hmap := vmm_map_page_fresh hBtable hB0 halloc1 halloc2 halloc3
    hf10 hf1a hf164 hf20 hf2a hf264 hf30 hf3a hf364 hBf1.symm hf12.symm
    hv0 hva hv64 hp0 hpa hp64 hhuge
  have hMf3 : (mwrite (mwrite (mset (mwrite (mset (mwrite (mset s.mem f1
      emptyTable) s.current_pml4 (PML4_INDEX v) (newTableEntry f1 v)) f2
      emptyTable) f1 (PDPT_INDEX v) (newTableEntry f2 v)) f3 emptyTable) f2
      (PD_INDEX v) (newTableEntry f3 v)) f3 (PT_INDEX v)
      (p ||| vmm_hw_flags flags s.using_nx)) f3 (PT_INDEX v) =
      p ||| vmm_hw_flags flags s.using_nx := by
    rw [mwrite_frame_same, tset_same]
  have hmem : (vmm_map_page s v p flags).2.mem f3 (PT_INDEX v) =
      p ||| vmm_hw_flags flags s.using_nx := by
    rw [hmap]
    exact hMf3
  have hfst : (vmm_map_page s v p flags).1 = true := by rw [hmap]
  rw [hmem, hfst]
  have hb0 : (p ||| vmm_hw_flags flags s.using_nx).testBit 0 = true := by
    rw [lor_small_testBit_low hpa (by norm_num), hw_flags_testBit0]
  have hb1 : (p ||| vmm_hw_flags flags s.using_nx).testBit 1 = flags.testBit 1 := by
    rw [lor_small_testBit_low hpa (by norm_num), hw_flags_testBit1]
  have hb63 : (p ||| vmm_hw_flags flags s.using_nx).testBit 63 =
      (flags.testBit 63 && s.using_nx) := by
    rw [Nat.testBit_lor, Nat.testBit_eq_false_of_lt hp63, hw_flags_testBit63,
      Bool.false_or]
  refine ⟨rfl, hb0, hb1, hb63, ?_⟩
  rw [hb1, hb63]
  cases hx : flags.testBit 1 <;> cases hy : flags.testBit 63 <;>
    cases hz : s.using_nx <;> simp

/-- The state after the counterexample map for claim C2:
PRESENT | WRITABLE requested, NO_EXECUTE not requested, NX supported. -/
def c2x_m : Bool × VMMState := vmm_map_page wState 0x400000 0x5000 3

/-- Claim C2 is false as stated: with NX supported (wState.using_nx),
a map_page request of PRESENT | WRITABLE (without NO_EXECUTE) installs
a leaf that is both writable (bit 1) and executable (bit 63 clear), so a
writable-and-executable mapping arises although the CPU supports NX. -/
theorem c2_counterexample :
    wState.using_nx = true ∧
    c2x_m.1 = true ∧
    (c2x_m.2.mem 0x102000 (PT_INDEX 0x400000)).testBit 1 = true ∧
    (c2x_m.2.mem 0x102000 (PT_INDEX 0x400000)).testBit 63 = false := by
  refine ⟨by decide, by decide, by decide, by decide⟩

theorem c2_witness :
    (vmm_map_page wState 0x400000 0x5000 3).1 = true ∧
    ((vmm_map_page wState 0x400000 0x5000 3).2.mem 0x102000
      (PT_INDEX 0x400000)).testBit 0 = true ∧
    ((vmm_map_page wState 0x400000 0x5000 3).2.mem 0x102000
      (PT_INDEX 0x400000)).testBit 1 = (3 : Nat).testBit 1 ∧
    ((vmm_map_page wState 0x400000 0x5000 3).2.mem 0x102000
      (PT_INDEX 0x400000)).testBit 63 = ((3 : Nat).testBit 63 && wState.using_nx) ∧
    (((vmm_map_page wState 0x400000 0x5000 3).2.mem 0x102000
        (PT_INDEX 0x400000)).testBit 1 = true ∧
      ((vmm_map_page wState 0x400000 0x5000 3).2.mem 0x102000
        (PT_INDEX 0x400000)).testBit 63 = false ↔
      (3 : Nat).testBit 1 = true ∧
        ((3 : Nat).testBit 63 = false ∨ wState.using_nx = false)) :=
  @c2_leaf_wx_characterisation wState 0x400000 0x5000 3 0x100000 0x101000
    0x102000 ⟨1, 0x100000, 16, 0x110000⟩ ⟨3, 0x100000, 16, 0x110000⟩
    ⟨7, 0x100000, 16, 0x110000⟩
    rfl (by decide) (by decide) (by decide) (by decide) (by decide) (by decide)
    (by decide) (by decide) (by decide) (by decide) (by decide) (by decide)
    (by decide) (by decide) (by decide) (by decide) (by decide) (by decide)
    (by decide) (by decide) (by decide) (by decide)

theorem c6_witness :
    (0x100000 : Nat) ≠ 0 ∧
    ∃ s', vmm_create_address_space wState = some (0x100000, s') ∧
      s'.mem 0x100000 300 = wState.mem wState.current_pml4 300 ∧
      s'.mem 0x100000 5 = 0 := by
  obtain ⟨s', h1, h2, h3⟩ :=
    c6_create_address_space_kernel_half wState 0x100000
      { bitmap := 1, kernel_start := 0x100000, max_pages := 16, kernel_end := 0x110000 }
      (by decide) (by decide) (by decide)
  exact ⟨by decide, s', h1, h2 300 (by omega) (by omega), h3 5 (by omega)⟩

/-! ## PIT timer (timer.c)

Callback function pointers and contexts are modelled as Nat, with 0 as
NULL. -/

def PIT_BASE_FREQUENCY : Nat := 1193182

/-- timer_set_frequency (timer.c): the validation branch, the effective
frequency and the PIT divisor.  Returns (effective frequency, divisor,
whether the invalid-frequency message was printed). -/
def timer_set_frequency (frequency_hz : Nat) : Nat × Nat × Bool :=
  if frequency_hz < 19 ∨ frequency_hz > PIT_BASE_FREQUENCY then
    (1000, PIT_BASE_FREQUENCY / 1000, true)
  else
    (frequency_hz, PIT_BASE_FREQUENCY / frequency_hz, false)

structure TimerCb where
  callback : Nat
  context : Nat
  interval_ms : Nat
  next_tick : Nat
  active : Bool
deriving DecidableEq, Repr

instance : Inhabited TimerCb := ⟨⟨0, 0, 0, 0, false⟩⟩

structure TimerState where
  callbacks : List TimerCb
  tick_count : Nat
  frequency : Nat
  inited : Bool
deriving DecidableEq, Repr

/-- The slot-search loop of timer_register_callback over the table. -/
def timer_register_scan (tick freq cb ctx ms : Nat) :
    List TimerCb → Option (List TimerCb)
  | [] => none
  | slot :: rest =>
      if slot.active then
        match timer_register_scan tick freq cb ctx ms rest with
        | none => none
        | some rest' => some (slot :: rest')
      else
        let inc0 := ms * freq / 1000
        let inc := if inc0 = 0 then 1 else inc0
        some ({ callback := cb, context := ctx, interval_ms := ms,
                next_tick := tick + inc, active := true } :: rest)

/-- timer_register_callback (timer.c). -/
def timer_register_callback (s : TimerState) (cb ctx ms : Nat) :
    Bool × TimerState :=
  if cb = 0 ∨ ms = 0 ∨ ¬s.inited then (false, s)
  else
    match timer_register_scan s.tick_count s.frequency cb ctx ms s.callbacks with
    | none => (false, s)
    | some cbs => (true, { s with callbacks := cbs })

/-- The search loop of timer_unregister_callback: clears the first
active slot whose callback matches, leaving interval_ms and next_tick in
place. -/
def timer_unregister_scan (cb : Nat) : List TimerCb → Option (List TimerCb)
  | [] => none
  | slot :: rest =>
      if slot.active ∧ slot.callback = cb then
        some ({ slot with callback := 0, context := 0, active := false } :: rest)
      else
        match timer_unregister_scan cb rest with
        | none => none
        | some rest' => some (slot :: rest')

/-- timer_unregister_callback (timer.c). -/
def timer_unregister_callback (s : TimerState) (cb : Nat) : Bool × TimerState :=
  if cb = 0 ∨ ¬s.inited then (false, s)
  else
    match timer_unregister_scan cb s.callbacks with
    | none => (false, s)
    | some cbs => (true, { s with callbacks := cbs })

/-! ### Claim C4 -/

/-- Claim C4 is false as stated: a requested frequency of 5 Hz is not
clamped to the nearest bound 19 Hz; the code replaces it with the
default 1000 Hz and programs divisor 1193182/1000 = 1193, not
1193182/19. -/
theorem c4_counterexample :
    (timer_set_frequency 5).1 = 1000 ∧ (timer_set_frequency 5).1 ≠ 19 ∧
    (timer_set_frequency 5).2.1 = 1193 ∧
    (timer_set_frequency 5).2.1 ≠ 1193182 / 19 ∧
    (timer_set_frequency 5).2.2 = true := by
  refine ⟨by decide, by decide, by decide, by decide, by decide⟩

/-- Claim C4 (amended): a requested frequency below 19 Hz or above
1193182 Hz is replaced by the default 1000 Hz (and the rejection is
reported); the PIT divisor programmed is 1193182 divided by the
effective frequency (so 1193 for out-of-range requests; in-range
requests get 1193182 / frequency). -/
theorem c4_timer_frequency_default (f : Nat)
    (h : f < 19 ∨ f > 1193182) :
    timer_set_frequency f = (1000, 1193, true) ∧
    (timer_set_frequency f).2.1 = PIT_BASE_FREQUENCY / (timer_set_frequency f).1 := by
  have hinv : f < 19 ∨ f > PIT_BASE_FREQUENCY := h
  rw [timer_set_frequency, if_pos hinv]
  exact ⟨by decide, by decide⟩

theorem c4_witness :
    ((5 : Nat) < 19 ∨ (5 : Nat) > 1193182) ∧
    timer_set_frequency 5 = (1000, 1193, true) :=
  ⟨by decide, (c4_timer_frequency_default 5 (by decide)).1⟩

/-! ### Claim C9 -/

/-- The all-empty callback table (the state timer_init leaves behind:
memset to zero, so every slot is {0, 0, 0, 0, false}). -/
def timerEmptyTable : List TimerCb := List.replicate 16 ⟨0, 0, 0, 0, false⟩

def c9_state (tick freq : Nat) : TimerState :=
  ⟨timerEmptyTable, tick, freq, true⟩

/-- The slot written by a registration into the first (empty) slot. -/
def c9_regslot (tick freq cb ctx ms : Nat) : TimerCb :=
  ⟨cb, ctx, ms, tick + (if ms * freq / 1000 = 0 then 1 else ms * freq / 1000), true⟩

/-- The same slot after unregistration: callback, context and active
cleared, interval_ms and next_tick left behind. -/
def c9_staleslot (tick freq ms : Nat) : TimerCb :=
  ⟨0, 0, ms, tick + (if ms * freq / 1000 = 0 then 1 else ms * freq / 1000), false⟩

/-- Claim C9 is false as stated: from the post-init state, register(cb=1,
ctx=7, ms=5) at tick 0 and frequency 1000 followed by unregister(1)
leaves slot 0 with interval_ms = 5 and next_tick = 5, not the all-zero
slot it had before: the callback table is not restored exactly, every
field included. -/
theorem c9_counterexample :
    (timer_register_callback (c9_state 0 1000) 1 7 5).1 = true ∧
    (timer_unregister_callback
      (timer_register_callback (c9_state 0 1000) 1 7 5).2 1).1 = true ∧
    (timer_unregister_callback
      (timer_register_callback (c9_state 0 1000) 1 7 5).2 1).2 ≠
      c9_state 0 1000 := by
  refine ⟨by decide, by decide, by decide⟩

/-- Claim C9 (amended): starting from a callback table with no
registered callbacks (all slots zero), timer_register(cb, ms) followed
by timer_unregister(cb) restores the callback, context and active
fields of every slot; only interval_ms and next_tick of the used slot
retain the values from the registration. -/
theorem c9_timer_register_unregister_roundtrip (tick freq cb ctx ms : Nat)
    (hcb : cb ≠ 0) (hms : ms ≠ 0) :
    (timer_register_callback (c9_state tick freq) cb ctx ms).1 = true ∧
    (timer_unregister_callback
      (timer_register_callback (c9_state tick freq) cb ctx ms).2 cb).1 = true ∧
    (timer_unregister_callback
      (timer_register_callback (c9_state tick freq) cb ctx ms).2 cb).2 =
      ⟨c9_staleslot tick freq ms :: List.replicate 15 ⟨0, 0, 0, 0, false⟩,
        tick, freq, true⟩ ∧
    ((timer_unregister_callback
      (timer_register_callback (c9_state tick freq) cb ctx ms).2 cb).2.callbacks.map
        (fun c => (c.callback, c.context, c.active))) =
      (timerEmptyTable.map (fun c => (c.callback, c.context, c.active))) := by
  have hscan : timer_register_scan tick freq cb ctx ms timerEmptyTable =
      some (c9_regslot tick freq cb ctx ms :: List.replicate 15 ⟨0, 0, 0, 0, false⟩) := by
    rw [show timerEmptyTable =
      (⟨0, 0, 0, 0, false⟩ : TimerCb) :: List.replicate 15 ⟨0, 0, 0, 0, false⟩ from rfl]
    rw [timer_register_scan]
    rw [if_neg (by decide)]
    rfl
  have hreg : timer_register_callback (c9_state tick freq) cb ctx ms =
      (true, ⟨c9_regslot tick freq cb ctx ms ::
        List.replicate 15 ⟨0, 0, 0, 0, false⟩, tick, freq, true⟩) := by
    rw [timer_register_callback]
    rw [if_neg (by push_neg; exact ⟨hcb, hms, by simp [c9_state]⟩)]
    rw [show (c9_state tick freq).callbacks = timerEmptyTable from rfl]
    rw [show (c9_state tick freq).tick_count = tick from rfl]
    rw [show (c9_state tick freq).frequency = freq from rfl]
    simp only [hscan]
    rfl
  rw [hreg]
  have hscan2 : timer_unregister_scan cb
      (c9_regslot tick freq cb ctx ms :: List.replicate 15 ⟨0, 0, 0, 0, false⟩) =
      some (c9_staleslot tick freq ms :: List.replicate 15 ⟨0, 0, 0, 0, false⟩) := by
    rw [timer_unregister_scan]
    rw [if_pos ⟨rfl, rfl⟩]
    rfl
  have hunreg : timer_unregister_callback
      (⟨c9_regslot tick freq cb ctx ms :: List.replicate 15 ⟨0, 0, 0, 0, false⟩,
        tick, freq, true⟩ : TimerState) cb =
      (true, ⟨c9_staleslot tick freq ms :: List.replicate 15 ⟨0, 0, 0, 0, false⟩,
        tick, freq, true⟩) := by
    rw [timer_unregister_callback]
    rw [if_neg (by push_neg; exact ⟨hcb, by simp⟩)]
    simp only [hscan2]
  rw [hunreg]
  refine ⟨rfl, rfl, rfl, by simp [timerEmptyTable, c9_staleslot]⟩

theorem c9_witness :
    (1 : Nat) ≠ 0 ∧
    (timer_register_callback (c9_state 0 1000) 1 7 5).1 = true ∧
    (timer_unregister_callback
      (timer_register_callback (c9_state 0 1000) 1 7 5).2 1).1 = true ∧
    ((timer_unregister_callback
      (timer_register_callback (c9_state 0 1000) 1 7 5).2 1).2.callbacks.map
        (fun c => (c.callback, c.context, c.active))) =
      (timerEmptyTable.map (fun c => (c.callback, c.context, c.active))) := by
  have h := c9_timer_register_unregister_roundtrip 0 1000 1 7 5 (by decide)
    (by decide)
  exact ⟨by decide, h.1, h.2.1, h.2.2.2⟩

/-! ## 8259 PIC (pic.c) and IRQ multiplexing (irq.c)

Masks are the pic.c tracking bytes pic_master_mask / pic_slave_mask
(the hardware is rewritten whenever they change, so they coincide with
the hardware registers).  Handler function pointers and contexts are
Nat with 0 as NULL. -/

structure IrqSlot where
  handler : Nat
  context : Nat
  active : Bool
deriving DecidableEq, Repr

structure IrqState where
  handlers : List (List IrqSlot)
  master_mask : Nat
  slave_mask : Nat
  enabled_mask : Nat
deriving DecidableEq, Repr

/-- pic_enable_irq (pic.c): clear the line's mask bit; when a slave line
is newly unmasked, also clear the IRQ2 cascade bit on the master.
Returns (master_mask, slave_mask). -/
def pic_enable_irq (m s irq : Nat) : Nat × Nat :=
  if irq ≥ 16 then (m, s)
  else if irq < 8 then
    (m &&& (0xFF ^^^ (1 <<< irq)), s)
  else
    let mask := s &&& (0xFF ^^^ (1 <<< (irq - 8)))
    if mask ≠ s then
      if m &&& (1 <<< 2) ≠ 0 then (m &&& (0xFF ^^^ (1 <<< 2)), mask)
      else (m, mask)
    else (m, s)

/-- pic_disable_irq (pic.c): set the line's mask bit.  The cascade bit
is never re-set. -/
def pic_disable_irq (m s irq : Nat) : Nat × Nat :=
  if irq ≥ 16 then (m, s)
  else if irq < 8 then (m ||| (1 <<< irq), s)
  else (m, s ||| (1 <<< (irq - 8)))

/-- irq_enable (irq.c). -/
def irq_enable (st : IrqState) (irq : Nat) : IrqState :=
  if irq ≥ 16 then st
  else
    let ms := pic_enable_irq st.master_mask st.slave_mask irq
    ⟨st.handlers, ms.1, ms.2, st.enabled_mask ||| (1 <<< irq)⟩

/-- irq_disable (irq.c). -/
def irq_disable (st : IrqState) (irq : Nat) : IrqState :=
  if irq ≥ 16 then st
  else
    let ms := pic_disable_irq st.master_mask st.slave_mask irq
    ⟨st.handlers, ms.1, ms.2, st.enabled_mask &&& (0xFFFF ^^^ (1 <<< irq))⟩

/-- The slot-search loop of irq_register_handler: first inactive slot,
returning the updated slot list and the slot index. -/
def irq_register_scan (h ctx : Nat) : List IrqSlot → Option (List IrqSlot × Nat)
  | [] => none
  | slot :: rest =>
      if slot.active then
        match irq_register_scan h ctx rest with
        | none => none
        | some (rest', i) => some (slot :: rest', i + 1)
      else some (⟨h, ctx, true⟩ :: rest, 0)

/-- irq_register_handler (irq.c): install into the first free slot;
enable the line when the slot index is 0. -/
def irq_register_handler (st : IrqState) (irq h ctx : Nat) : Bool × IrqState :=
  if irq ≥ 16 ∨ h = 0 then (false, st)
  else
    match irq_register_scan h ctx (st.handlers.getD irq []) with
    | none => (false, st)
    | some (slots', i) =>
        let st' := { st with handlers := st.handlers.set irq slots' }
        if i = 0 then (true, irq_enable st' irq) else (true, st')

/-- The search loop of irq_unregister_handler: clear the first active
slot holding the handler. -/
def irq_unregister_scan (h : Nat) : List IrqSlot → Option (List IrqSlot)
  | [] => none
  | slot :: rest =>
      if slot.active ∧ slot.handler = h then some (⟨0, 0, false⟩ :: rest)
      else
        match irq_unregister_scan h rest with
        | none => none
        | some rest' => some (slot :: rest')

/-- irq_unregister_handler (irq.c): clear the matching slot (if any);
then, if no active handler remains on the line, disable it. -/
def irq_unregister_handler (st : IrqState) (irq h : Nat) : Bool × IrqState :=
  if irq ≥ 16 ∨ h = 0 then (false, st)
  else
    let fr := match irq_unregister_scan h (st.handlers.getD irq []) with
      | none => (false, st.handlers.getD irq [])
      | some slots' => (true, slots')
    let st' := { st with handlers := st.handlers.set irq fr.2 }
    if ¬(fr.2.any (fun slot => slot.active)) then (fr.1, irq_disable st' irq)
    else (fr.1, st')

/-! ### Claim C8 -/

/-- The state right after irq_init: both PICs fully masked, no handler
registered, enabled-mask zero. -/
def c8_state : IrqState :=
  ⟨List.replicate 16 (List.replicate 8 ⟨0, 0, false⟩), 0xFF, 0xFF, 0⟩

/-- Claim C8 is false as stated: on slave line 8, register(8, h) then
unregister(8, h) leaves the master PIC mask at 0xFB, with the IRQ2
cascade bit still unmasked, instead of the 0xFF it held before. -/
theorem c8_counterexample :
    (irq_register_handler c8_state 8 1 0).1 = true ∧
    (irq_unregister_handler (irq_register_handler c8_state 8 1 0).2 8 1).1 = true ∧
    (irq_unregister_handler (irq_register_handler c8_state 8 1 0).2 8 1).2.master_mask
      = 0xFB ∧
    c8_state.master_mask = 0xFF := by
  refine ⟨by decide, by decide, by decide, by decide⟩

/-- Claim C8 (amended): starting from the post-init state (all lines
masked, no handlers), irq_register(line, h) followed by
irq_unregister(line, h) restores the handler table, the slave mask and
the enabled-mask tracking exactly; for master lines (0-7) the master
mask is also restored, but for slave lines (8-15) the register call
unmasks the IRQ2 cascade bit on the master and unregister never
re-masks it, leaving the master mask at 0xFB. -/
theorem c8_irq_register_unregister_roundtrip (line h ctx : Nat)
    (hline : line < 16) (hh : h ≠ 0) :
    (irq_register_handler c8_state line h ctx).1 = true ∧
    (irq_unregister_handler (irq_register_handler c8_state line h ctx).2 line h).1
      = true ∧
    (irq_unregister_handler (irq_register_handler c8_state line h ctx).2 line h).2
      = (if line < 8 then c8_state
         else ⟨List.replicate 16 (List.replicate 8 ⟨0, 0, false⟩), 0xFB, 0xFF, 0⟩) := by
  interval_cases line <;>
    simp [irq_register_handler, irq_unregister_handler, irq_register_scan,
      irq_unregister_scan, irq_enable, irq_disable, pic_enable_irq,
      pic_disable_irq, c8_state, hh, List.replicate] <;>
    decide

theorem c8_witness :
    (3 : Nat) < 16 ∧ (7 : Nat) ≠ 0 ∧
    (irq_register_handler c8_state 3 7 9).1 = true ∧
    (irq_unregister_handler (irq_register_handler c8_state 3 7 9).2 3 7).1 = true ∧
    (irq_unregister_handler (irq_register_handler c8_state 3 7 9).2 3 7).2
      = (if (3 : Nat) < 8 then c8_state
         else ⟨List.replicate 16 (List.replicate 8 ⟨0, 0, false⟩), 0xFB, 0xFF, 0⟩) := by
  have hr := c8_irq_register_unregister_roundtrip 3 7 9 (by decide) (by decide)
  exact ⟨by decide, by decide, hr.1, hr.2.1, hr.2.2⟩

/-! ## ELF64 loader (elf.c)

The image is a total byte function (bytes below 256 in all scenarios);
multi-byte header fields are read little-endian per the x86-64 ELF64
layout.  The loader's alloc_pages/free_pages function pointers are
always process_alloc_pages/process_free_pages (process.c), which call
the PMM directly, so the model is specialised to the PMM.  Program
headers are indexed with the 56-byte elf64_program_header_t stride, as
the C array indexing does. -/

def Bytes : Type := Nat → Nat

/-- Little-endian read of n bytes at off. -/
def leRead (d : Bytes) (off n : Nat) : Nat :=
  (List.range n).foldl (fun acc i => acc + d (off + i) * 256 ^ i) 0

def e_type (d : Bytes) : Nat := leRead d 16 2
def e_machine (d : Bytes) : Nat := leRead d 18 2
def e_version (d : Bytes) : Nat := leRead d 20 4
def e_entry (d : Bytes) : Nat := leRead d 24 8
def e_phoff (d : Bytes) : Nat := leRead d 32 8
def e_shoff (d : Bytes) : Nat := leRead d 40 8
def e_phentsize (d : Bytes) : Nat := leRead d 54 2
def e_phnum (d : Bytes) : Nat := leRead d 56 2
def e_shentsize (d : Bytes) : Nat := leRead d 58 2
def e_shnum (d : Bytes) : Nat := leRead d 60 2

/-- elf_is_valid (elf.c): size, magic and 64-bit class only. -/
def elf_is_valid (d : Bytes) (size : Nat) : Bool :=
  if size < 64 then false
  else if d 0 ≠ 0x7F ∨ d 1 ≠ 0x45 ∨ d 2 ≠ 0x4C ∨ d 3 ≠ 0x46 then false
  else if d 4 ≠ 2 then false
  else true

/-- validate_elf_header (elf.c). -/
def validate_elf_header (d : Bytes) : Bool :=
  if d 0 ≠ 0x7F ∨ d 1 ≠ 0x45 ∨ d 2 ≠ 0x4C ∨ d 3 ≠ 0x46 then false
  else if d 4 ≠ 2 then false
  else if d 5 ≠ 1 then false
  else if e_version d ≠ 1 then false
  else if e_machine d ≠ 62 then false
  else if e_type d ≠ 2 ∧ e_type d ≠ 3 then false
  else if e_phoff d = 0 ∨ e_phnum d = 0 then false
  else if e_entry d = 0 then false
  else true

/-- validate_elf_size (elf.c). -/
def validate_elf_size (d : Bytes) (size : Nat) : Bool :=
  if size < 64 then false
  else if e_phoff d + e_phnum d * e_phentsize d > size then false
  else if e_shoff d + e_shnum d * e_shentsize d > size then false
  else true

structure Phdr where
  p_type : Nat
  p_flags : Nat
  p_offset : Nat
  p_vaddr : Nat
  p_filesz : Nat
  p_memsz : Nat
deriving DecidableEq, Repr

/-- Program header i, read at the 56-byte struct stride used by
`ctx->program_headers[i]`. -/
def readPhdr (d : Bytes) (phoff i : Nat) : Phdr :=
  let b := phoff + i * 56
  ⟨leRead d b 4, leRead d (b + 4) 4, leRead d (b + 8) 8, leRead d (b + 16) 8,
    leRead d (b + 32) 8, leRead d (b + 40) 8⟩

structure ElfCtx where
  data : Bytes
  size : Nat
  program_headers : Nat
  section_headers : Nat
  loaded_segments : List (Nat × Nat)
  entry_point : Nat
  base_address : Nat

def elfZero : ElfCtx := ⟨fun _ => 0, 0, 0, 0, [], 0, 0⟩

/-- elf_cleanup (elf.c): frees the program-header block and the section
header block with a count of ONE page each (regardless of how many
pages were allocated), then the loaded segments, and clears the
context. -/
def elf_cleanup (ctx : ElfCtx) (pmm : PMMState) : ElfCtx × PMMState :=
  let pmm := if ctx.program_headers ≠ 0 then pmm_free_pages pmm ctx.program_headers 1
    else pmm
  let pmm := if ctx.section_headers ≠ 0 then pmm_free_pages pmm ctx.section_headers 1
    else pmm
  let pmm := ctx.loaded_segments.foldl
    (fun pm seg => if seg.1 ≠ 0 then pmm_free_pages pm seg.1 (seg.2 / 4096) else pm)
    pmm
  (elfZero, pmm)

/-- elf_init (elf.c), specialised to the PMM allocators of process.c.
Returns the context on success; the PMM is threaded through because the
header parses allocate (and on the second-parse failure, elf_cleanup
frees the first block). -/
def elf_init (pmm : PMMState) (d : Bytes) (size : Nat) :
    Option ElfCtx × PMMState :=
  if size < 64 then (none, pmm)
  else if ¬ validate_elf_header d then (none, pmm)
  else if ¬ validate_elf_size d size then (none, pmm)
  else
    match pmm_alloc_pages pmm ((e_phnum d * e_phentsize d + 4095) / 4096) with
    | none => (none, pmm)
    | some (phaddr, pmm1) =>
        match pmm_alloc_pages pmm1 ((e_shnum d * e_shentsize d + 4095) / 4096) with
        | none => (none, (elf_cleanup ⟨d, size, phaddr, 0, [], 0, 0⟩ pmm1).2)
        | some (shaddr, pmm2) =>
            (some ⟨d, size, phaddr, shaddr, [], 0, 0⟩, pmm2)

/-- The memset(segment, 0, mem_size) of elf_load. -/
def zeroFrames (m : Mem) (base n : Nat) : Mem :=
  (List.range n).foldl (fun mm k => mset mm (base + k * 4096) emptyTable) m

/-- The memcpy of segment file bytes (elf.c): byte b of the destination
becomes data[p_offset + b] for b < cnt; the destination frames were just
zero-filled, so each affected 64-bit word is the little-endian packing
of those bytes. -/
def copyBytes (m : Mem) (dst : Nat) (d : Bytes) (srcOff cnt : Nat) : Mem :=
  fun q =>
    if dst ≤ q ∧ q < dst + cnt ∧ (q - dst) % 4096 = 0 then
      fun i => leRead (fun b =>
        if (q - dst) + i * 8 + b < cnt then d (srcOff + (q - dst) + i * 8 + b)
        else 0) 0 8
    else m q

/-- The mapping-flag derivation of elf_load (elf.c 292-295): Present
always; Writable iff PF_W; NO_EXECUTE iff PF_X clear; User iff PF_R. -/
def elf_vm_flags (pf : Nat) : Nat :=
  VMM_FLAG_PRESENT |||
    (if pf &&& 2 ≠ 0 then VMM_FLAG_WRITABLE else 0) |||
    (if pf &&& 1 = 0 then VMM_FLAG_NO_EXECUTE else 0) |||
    (if pf &&& 4 ≠ 0 then VMM_FLAG_USER else 0)

/-- The PT_LOAD loop of elf_load: program header `i`, `fuel` headers
remaining. -/
def elf_load_loop (d : Bytes) (phoff load_bias : Nat) :
    Nat → Nat → ElfCtx → VMMState → Bool × ElfCtx × VMMState
  | _, 0, ctx, vm => (true, ctx, vm)
  | i, fuel + 1, ctx, vm =>
      let ph := readPhdr d phoff i
      if ph.p_type ≠ 1 then elf_load_loop d phoff load_bias (i + 1) fuel ctx vm
      else
        match vm with
        | ⟨m0, pmm0, c0, h0, n0⟩ =>
        let vaddr := ph.p_vaddr + load_bias
        let mem_size := (ph.p_memsz + 4095) &&& 0xFFFFFFFFFFFFF000
        let page_count := mem_size / 4096
        match pmm_alloc_pages pmm0 page_count with
        | none => (false, ctx, ⟨m0, pmm0, c0, h0, n0⟩)
        | some (seg, pmm1) =>
            let m1 := zeroFrames m0 seg page_count
            let m2 := if ph.p_filesz > 0 then
                copyBytes m1 seg d ph.p_offset
                  (if ph.p_filesz > mem_size then mem_size else ph.p_filesz)
              else m1
            let ctx2 := if ctx.loaded_segments.length < 16 then
                { ctx with loaded_segments := ctx.loaded_segments ++ [(seg, mem_size)] }
              else ctx
            match vmm_map_pages ⟨m2, pmm1, c0, h0, n0⟩ vaddr seg page_count
                (elf_vm_flags ph.p_flags) with
            | (ok, vmr) =>
              if ok then elf_load_loop d phoff load_bias (i + 1) fuel ctx2 vmr
              else
                match vmr with
                | ⟨mr, pmmr, cr, hr, nr⟩ =>
                  (false, ctx2, ⟨mr, pmm_free_pages pmmr seg page_count, cr, hr, nr⟩)

/-- elf_load (elf.c). -/
def elf_load (ctx : ElfCtx) (base_addr : Nat) (vm : VMMState) :
    Bool × ElfCtx × VMMState :=
  if ctx.program_headers = 0 then (false, ctx, vm)
  else
    let load_bias := if e_type ctx.data = 3 ∧ base_addr ≠ 0 then base_addr else 0
    match elf_load_loop ctx.data (e_phoff ctx.data) load_bias 0
      (e_phnum ctx.data) { ctx with base_address := base_addr } vm with
    | (ok, ctx2, vmr) =>
      if ok then
        (true, { ctx2 with entry_point := e_entry ctx.data + load_bias }, vmr)
      else (ok, ctx2, vmr)

/-- elf_get_entry_point (elf.c). -/
def elf_get_entry_point (ctx : ElfCtx) : Nat :=
  if ctx.entry_point ≠ 0 then ctx.entry_point else e_entry ctx.data

/-! ### Claim C7 -/

/-- Bit content of the ELF segment mapping request. -/
theorem elf_vm_flags_bits (pf : Nat) :
    (elf_vm_flags pf).testBit 0 = true ∧
    (elf_vm_flags pf).testBit 1 = pf.testBit 1 ∧
    (elf_vm_flags pf).testBit 63 = !pf.testBit 0 ∧
    (elf_vm_flags pf).testBit 2 = pf.testBit 2 ∧
    (elf_vm_flags pf).testBit 7 = false := by
  have h1 : pf &&& 1 = 0 ↔ ¬pf.testBit 0 := by
    rw [← and_one_ne_zero]
    tauto
  have h2 : pf &&& 2 ≠ 0 ↔ pf.testBit 1 := by
    have h := and_two_pow_ne_zero pf 1; norm_num at h; exact h
  have h4 : pf &&& 4 ≠ 0 ↔ pf.testBit 2 := by
    have h := and_two_pow_ne_zero pf 2; norm_num at h; exact h
  simp only [elf_vm_flags, VMM_FLAG_PRESENT, VMM_FLAG_WRITABLE, VMM_FLAG_USER,
    VMM_FLAG_NO_EXECUTE, h1, h2, h4]
  by_cases b0 : pf.testBit 0 <;> by_cases b1 : pf.testBit 1 <;>
    by_cases b2 : pf.testBit 2 <;>
    simp [b0, b1, b2] <;> decide

/-- Claim C7: for every PT_LOAD segment, the hardware flags finally
installed for its pages (the elf.c p_flags derivation composed with the
vmm_map_page translation) are: Present always; Writable iff PF_W; NX
iff PF_X is clear AND the CPU supports NX; User iff PF_R. -/
theorem c7_elf_segment_flags (pf : Nat) (nx : Bool) :
    (vmm_hw_flags (elf_vm_flags pf) nx).testBit 0 = true ∧
    (vmm_hw_flags (elf_vm_flags pf) nx).testBit 1 = pf.testBit 1 ∧
    (vmm_hw_flags (elf_vm_flags pf) nx).testBit 63 = (!pf.testBit 0 && nx) ∧
    (vmm_hw_flags (elf_vm_flags pf) nx).testBit 2 = pf.testBit 2 := by
  obtain ⟨hb0, hb1, hb63, hb2, _⟩ := elf_vm_flags_bits pf
  refine ⟨hw_flags_testBit0 _ nx, ?_, ?_, ?_⟩
  · rw [hw_flags_testBit1, hb1]
  · rw [hw_flags_testBit63, hb63]
  · rw [hw_flags_testBit2, hb2]

/-! ## Processes and scheduling (process.c)

Single-threaded model: the spinlock acquire/release pairs are no-ops.
The ready queue (a doubly-linked list threaded through the PCBs) is
modelled as the list of process-table slot indices in queue order;
add_to_ready_queue appends at the tail, remove unlinks the node.  CPU
context fields (registers) are not modelled; name truncation by strncpy
is not modelled.  Null-pointer checks on params/name always pass. -/

inductive PState where
  | NEW | READY | RUNNING | BLOCKED | SUSPENDED | TERMINATED
deriving DecidableEq, Repr

structure PCB where
  pid : Nat
  parent_pid : Nat
  name : String
  state : PState
  exit_code : Int
  page_table : Nat
  stack_top : Nat
  stack_size : Nat
  elf : ElfCtx
  entry_point : Nat
  cpu_time : Nat
  start_time : Nat
  quantum : Nat
  base_priority : Int
  dynamic_priority : Int

/-- A memset-to-zero PCB (state 0 = NEW). -/
def pcbZero : PCB := ⟨0, 0, "", PState.NEW, 0, 0, 0, 0, elfZero, 0, 0, 0, 0, 0, 0⟩

structure ProcParams where
  name : String
  parent_pid : Nat
  stack_size : Nat
  priority : Int
  time_quantum : Nat

structure ProcState where
  vm : VMMState
  table : List PCB
  next_pid : Nat
  ready_queue : List Nat
  blocked_queue : List Nat
  current : Option Nat
  idle : Option Nat
  tick : Nat

/-- allocate_pid (process.c): a monotonically increasing 32-bit counter
that skips 0 when it wraps. -/
def allocate_pid (s : ProcState) : Nat × ProcState :=
  let pid := s.next_pid
  let np := (s.next_pid + 1) % 2 ^ 32
  let np := if np = 0 then 1 else np
  (pid, ⟨s.vm, s.table, np, s.ready_queue, s.blocked_queue, s.current, s.idle, s.tick⟩)

/-- The slot-search loop of process_create: first slot i in 1..63 whose
entry is TERMINATED or has pid 0. -/
def find_slot_from (table : List PCB) : Nat → Nat → Option Nat
  | _, 0 => none
  | i, fuel + 1 =>
      let p := table.getD i pcbZero
      if p.state = PState.TERMINATED ∨ p.pid = 0 then some i
      else find_slot_from table (i + 1) fuel

def find_free_slot (table : List PCB) : Option Nat := find_slot_from table 1 63

/-- The stack-mapping loop of create_process_stack (PRESENT | WRITABLE
| USER); page i of fuel remaining; on failure unmaps the pages already
mapped. -/
def stack_map_loop (stack_virt stack_phys : Nat) :
    Nat → Nat → VMMState → Bool × VMMState
  | _, 0, vm => (true, vm)
  | i, fuel + 1, vm =>
      let r := vmm_map_page vm (stack_virt + i * 4096) (stack_phys + i * 4096) 7
      if r.1 then stack_map_loop stack_virt stack_phys (i + 1) fuel r.2
      else (false, vmm_unmap_range r.2 stack_virt i 4096)

/-- create_process_stack (process.c): allocate physical frames, switch
to the process address space, map the stack below 0xEFFFF000, attempt a
guard page (phys 0, which vmm_map_page rejects - warning only), switch
back.  Returns the stack top. -/
def create_process_stack (vm : VMMState) (stack_size0 page_table : Nat) :
    Option Nat × VMMState :=
  match vm with
  | ⟨m0, pmm0, old_cr3, hh, nx⟩ =>
    let ss := (stack_size0 + 4095) &&& 0xFFFFFFFFFFFFF000
    let page_count := ss / 4096
    match pmm_alloc_pages pmm0 page_count with
    | none => (none, ⟨m0, pmm0, old_cr3, hh, nx⟩)
    | some (stack_phys, pmm1) =>
        let stack_virt := 0xEFFFF000 - ss + 4096
        let vm2 := vmm_switch_address_space ⟨m0, pmm1, old_cr3, hh, nx⟩ page_table
        match stack_map_loop stack_virt stack_phys 0 page_count vm2 with
        | (ok, vmr) =>
          if ok then
            let g := vmm_map_page vmr (stack_virt - 4096) 0
              (VMM_FLAG_PRESENT ||| VMM_FLAG_NO_EXECUTE)
            (some (stack_virt + ss), vmm_switch_address_space g.2 old_cr3)
          else
            match vmm_switch_address_space vmr old_cr3 with
            | ⟨m3, pmm3, c3, h3, n3⟩ =>
                (none, ⟨m3, pmm_free_pages pmm3 stack_phys page_count, c3, h3, n3⟩)

/-- process_get_by_id (process.c): returns the slot whose INDEX equals
the pid, and only if that slot's pid field matches. -/
def process_get_by_id (s : ProcState) (pid : Nat) : Option Nat :=
  if pid ≥ 64 then none
  else if (s.table.getD pid pcbZero).pid = pid then some pid else none

/-- process_create (process.c), end to end. -/
def process_create (s : ProcState) (d : Bytes) (elf_size : Nat)
    (pp : ProcParams) : Nat × ProcState :=
  if elf_size = 0 then (0, s)
  else if ¬ elf_is_valid d elf_size then (0, s)
  else
    match find_free_slot s.table with
    | none => (0, s)
    | some idx =>
      match allocate_pid s with
      | (pid, s1) =>
      match s1 with
      | ⟨svm, stable, snext, srq, sbq, scur, sidle, stick⟩ =>
      let pcb0 : PCB :=
        { pcbZero with
          pid := pid, parent_pid := pp.parent_pid, name := pp.name,
          state := PState.NEW, base_priority := pp.priority,
          dynamic_priority := pp.priority,
          quantum := if pp.time_quantum ≠ 0 then pp.time_quantum else 20 }
      match vmm_create_address_space svm with
      | none =>
          -- Failure at address-space creation: the C releases the lock and
          -- returns 0 WITHOUT resetting process->pid, leaving the slot
          -- unusable for future searches.
          (0, ⟨svm, stable.set idx pcb0, snext, srq, sbq, scur, sidle, stick⟩)
      | some (pt, vm1) =>
        let pcb1 := { pcb0 with page_table := pt }
        let stack_size := if pp.stack_size ≠ 0 then pp.stack_size else 0x200000
        match create_process_stack vm1 stack_size pt with
        | (stko, vm2) =>
        match stko with
        | none =>
            let vm3 := vmm_delete_address_space vm2 pt
            (0, ⟨vm3, stable.set idx
              { pcb1 with stack_size := stack_size, pid := 0 }, snext,
              srq, sbq, scur, sidle, stick⟩)
        | some stack_top =>
          let pcb2 := { pcb1 with stack_top := stack_top, stack_size := stack_size }
          match vm2 with
          | ⟨m2, pmm2, old_cr3, h2, n2⟩ =>
          match elf_init pmm2 d elf_size with
          | (ctxo, pmmE) =>
          match ctxo with
          | none =>
              -- Failure at ELF-context initialisation: the page tables are
              -- deleted but the stack frames are NOT freed.
              let vm4 := vmm_delete_address_space ⟨m2, pmmE, old_cr3, h2, n2⟩ pt
              (0, ⟨vm4, stable.set idx { pcb2 with pid := 0 }, snext,
                srq, sbq, scur, sidle, stick⟩)
          | some ectx =>
            let vm4 := vmm_switch_address_space ⟨m2, pmmE, old_cr3, h2, n2⟩ pt
            match elf_load ectx 0 vm4 with
            | (ok, ectx2, vmr) =>
            if ¬ ok then
              -- Failure while loading segments: switch back, elf_cleanup,
              -- delete the address space; the stack frames are NOT freed.
              match vmm_switch_address_space vmr old_cr3 with
              | ⟨m5, pmm5, c5, h5, n5⟩ =>
              match elf_cleanup ectx2 pmm5 with
              | (ectx3, pmm6) =>
              let vm6 := vmm_delete_address_space ⟨m5, pmm6, c5, h5, n5⟩ pt
              (0, ⟨vm6, stable.set idx { pcb2 with elf := ectx3, pid := 0 },
                snext, srq, sbq, scur, sidle, stick⟩)
            else
              let entry := elf_get_entry_point ectx2
              let vm5 := vmm_switch_address_space vmr old_cr3
              let pcb3 :=
                { pcb2 with
                  elf := ectx2, entry_point := entry, state := PState.READY,
                  start_time := stick }
              (pid, ⟨vm5, stable.set idx pcb3, snext,
                srq ++ [idx], sbq, scur, sidle, stick⟩)

/-- context_switch (process.c). -/
def context_switch (s : ProcState) (next : Nat) : ProcState :=
  if s.current = some next then s
  else
    let s1 : ProcState :=
      match s.current with
      | some prev =>
          let p := s.table.getD prev pcbZero
          if p.state = PState.RUNNING then
            ⟨s.vm, s.table.set prev { p with state := PState.READY }, s.next_pid,
              s.ready_queue, s.blocked_queue, s.current, s.idle, s.tick⟩
          else s
      | none => s
    let n := s1.table.getD next pcbZero
    ⟨vmm_switch_address_space s1.vm n.page_table,
      s1.table.set next { n with state := PState.RUNNING }, s1.next_pid,
      s1.ready_queue, s1.blocked_queue, some next, s1.idle, s1.tick⟩

/-- schedule_next (process.c). -/
def schedule_next (s : ProcState) : ProcState :=
  match s.ready_queue with
  | idx :: rest =>
      context_switch ⟨s.vm, s.table, s.next_pid, rest, s.blocked_queue,
        s.current, s.idle, s.tick⟩ idx
  | [] =>
      match s.idle with
      | some idx => context_switch s idx
      | none => s

/-- process_terminate (process.c), including free_process_resources
(elf_cleanup plus address-space deletion; the stack frames are not
freed there either). -/
def process_terminate (s : ProcState) (pid : Nat) (code : Int) :
    Bool × ProcState :=
  if pid = 0 then (false, s)
  else
    match process_get_by_id s pid with
    | none => (false, s)
    | some idx =>
      match s with
      | ⟨svm, stable, snext, srq, sbq, scur, sidle, stick⟩ =>
        let p := stable.getD idx pcbZero
        let rq := if p.state = PState.READY then srq.erase idx else srq
        let bq := if p.state = PState.BLOCKED then sbq.erase idx else sbq
        let p1 := { p with exit_code := code, state := PState.TERMINATED }
        match svm with
        | ⟨m0, pmm0, c0, h0, n0⟩ =>
        match elf_cleanup p1.elf pmm0 with
        | (ectx2, pmm1) =>
        let vm2 := if p1.page_table ≠ 0 then
            vmm_delete_address_space ⟨m0, pmm1, c0, h0, n0⟩ p1.page_table
          else ⟨m0, pmm1, c0, h0, n0⟩
        let p2 := { p1 with elf := ectx2, page_table := 0 }
        let tbl := stable.set idx p2
        if scur = some idx then
          (true, schedule_next ⟨vm2, tbl, snext, rq, bq, none, sidle, stick⟩)
        else (true, ⟨vm2, tbl, snext, rq, bq, scur, sidle, stick⟩)

/-- process_unblock (process.c). -/
def process_unblock (s : ProcState) (pid : Nat) : Bool × ProcState :=
  match process_get_by_id s pid with
  | none => (false, s)
  | some idx =>
      let p := s.table.getD idx pcbZero
      if p.state ≠ PState.BLOCKED then (false, s)
      else
        (true, ⟨s.vm, s.table.set idx { p with state := PState.READY },
          s.next_pid, s.ready_queue ++ [idx], s.blocked_queue.erase idx,
          s.current, s.idle, s.tick⟩)

/-- process_set_priority (process.c). -/
def process_set_priority (s : ProcState) (pid : Nat) (prio : Int) :
    Bool × ProcState :=
  match process_get_by_id s pid with
  | none => (false, s)
  | some idx =>
      let p := s.table.getD idx pcbZero
      (true, ⟨s.vm, s.table.set idx
        { p with base_priority := prio, dynamic_priority := prio }, s.next_pid,
        s.ready_queue, s.blocked_queue, s.current, s.idle, s.tick⟩)

/-- process_get_stats (process.c): cpu_time and state, or failure. -/
def process_get_stats (s : ProcState) (pid : Nat) : Option (Nat × PState) :=
  match process_get_by_id s pid with
  | none => none
  | some idx =>
      let p := s.table.getD idx pcbZero
      some (p.cpu_time, p.state)

/-- process_register_kernel_idle (process.c): slot 0 becomes the idle
process (pid 0, READY, lowest priority, unbounded quantum). -/
def process_register_kernel_idle (s : ProcState) : ProcState :=
  let idle : PCB :=
    { pcbZero with
      pid := 0, state := PState.READY, name := "kernel_idle",
      quantum := 2 ^ 64 - 1, base_priority := -20, dynamic_priority := -20 }
  ⟨s.vm, s.table.set 0 idle, s.next_pid, s.ready_queue, s.blocked_queue,
    some 0, some 0, s.tick⟩

/-! ### Concrete scenario: a minimal ELF image and a small machine -/

/-- Little-endian byte list of a value. -/
def leBytes (val n : Nat) : List Nat :=
  (List.range n).map (fun i => val / 256 ^ i % 256)

/-- A minimal well-formed ELF64 executable: header (64 bytes, entry
0x400000, one program header at 64, one section header at 120), one
PT_LOAD segment (R+X, filesz 0, memsz 0x1000, vaddr 0x400000), one
all-zero section header.  184 bytes. -/
def goodElf : List Nat :=
  [0x7F, 0x45, 0x4C, 0x46, 2, 1, 1, 0] ++ List.replicate 8 0 ++
  leBytes 2 2 ++ leBytes 62 2 ++ leBytes 1 4 ++
  leBytes 0x400000 8 ++ leBytes 64 8 ++ leBytes 120 8 ++
  leBytes 0 4 ++ leBytes 64 2 ++ leBytes 56 2 ++ leBytes 1 2 ++
  leBytes 64 2 ++ leBytes 1 2 ++ leBytes 0 2 ++
  leBytes 1 4 ++ leBytes 5 4 ++
  leBytes 0 8 ++ leBytes 0x400000 8 ++ leBytes 0 8 ++
  leBytes 0 8 ++ leBytes 0x1000 8 ++ leBytes 0x1000 8 ++
  List.replicate 64 0

/-- goodElf packed little-endian into one number (byte i is
goodElfNat / 256 ^ i % 256); the equality with the byte list is checked
in goodElfNat_eq below. -/
def goodElfNat : Nat :=
  0x10000000000000001000000000000000000000000000000000000000000000400000000000000000000000000005000000010000000100400001003800400000000000000000000000780000000000000040000000000040000000000001003E0002000000000000000000010102464C457F

def goodElfBytes : Bytes := fun i => goodElfNat / 256 ^ i % 256

/-- The same image with e_machine zeroed: elf_is_valid still accepts it
(magic and class only), but validate_elf_header rejects it, so elf_init
fails after the address space and the stack have been created. -/
def badElfNat : Nat :=
  0x1000000000000000100000000000000000000000000000000000000000000040000000000000000000000000000500000001000000010040000100380040000000000000000000000078000000000000004000000000004000000000000100000002000000000000000000010102464C457F

def badElfBytes : Bytes := fun i => badElfNat / 256 ^ i % 256

theorem goodElfNat_eq : (List.range 184).map goodElfBytes = goodElf ∧
    (List.range 184).map badElfBytes = goodElf.set 18 0 ∧
    goodElfNat < 256 ^ 184 ∧ badElfNat < 256 ^ 184 := by decide

/-- The machine for the process scenarios: zeroed memory, a fully free
64-page PMM at 0x100000, kernel PML4 at 0x3000. -/
def scen_vm : VMMState :=
  ⟨fun _ => emptyTable, ⟨0, 0x100000, 64, 0x140000⟩, 0x3000,
    0xFFFF800000000000, true⟩

/-- Fresh process manager state with the kernel idle process in slot 0. -/
def scen_s0 : ProcState :=
  process_register_kernel_idle
    ⟨scen_vm, List.replicate 64 pcbZero, 1, [], [], none, none, 0⟩

/-- Creation parameters: a 4096-byte stack, default priority and
quantum. -/
def scenParams : ProcParams := ⟨"p", 0, 4096, 0, 0⟩

/-! ### Claim C3 -/

def c3_result : Nat × ProcState := process_create scen_s0 badElfBytes 184 scenParams

set_option maxHeartbeats 4000000 in
/-- Claim C3: create fails at the ELF-context-initialisation step (bad
e_machine), and the model shows the code does NOT restore PMM free
memory: the PML4 and the stack page tables are freed by
vmm_delete_address_space, but the physical frame allocated for the
stack is never freed, so one page leaks (64 free pages before the call,
63 after). -/
theorem c3_create_unwind_leaks_stack_frames :
    c3_result.1 = 0 ∧
    pmm_get_free_memory scen_s0.vm.pmm = 64 * 4096 ∧
    pmm_get_free_memory c3_result.2.vm.pmm = 63 * 4096 := by
  decide!

/-! ### Claim C10 -/

def c10_s1 : ProcState := (process_create scen_s0 goodElfBytes 184 scenParams).2

def c10_s2 : ProcState := (process_create c10_s1 goodElfBytes 184 scenParams).2

def c10_s3 : ProcState := (process_terminate c10_s2 1 0).2

def c10_final : ProcState := (process_create c10_s3 goodElfBytes 184 scenParams).2

set_option maxHeartbeats 4000000 in
/-- Claim C10: create two processes (pids 1 and 2 in slots 1 and 2),
terminate pid 1, create a third process: it reuses slot 1 but gets pid
3 from the monotonic counter.  process_get_by_id(3) looks only at slot
3 and finds nothing, so process_terminate, process_unblock,
process_set_priority and process_get_stats on pid 3 all fail - while
slot 1 holds the live pid-3 process in state READY on the ready
queue. -/
theorem c10_pid_slot_mismatch :
    (process_create scen_s0 goodElfBytes 184 scenParams).1 = 1 ∧
    (process_create c10_s1 goodElfBytes 184 scenParams).1 = 2 ∧
    (process_terminate c10_s2 1 0).1 = true ∧
    (process_create c10_s3 goodElfBytes 184 scenParams).1 = 3 ∧
    process_get_by_id c10_final 3 = none ∧
    (c10_final.table.getD 1 pcbZero).pid = 3 ∧
    (c10_final.table.getD 1 pcbZero).state = PState.READY ∧
    1 ∈ c10_final.ready_queue ∧
    (process_terminate c10_final 3 42).1 = false ∧
    (process_unblock c10_final 3).1 = false ∧
    (process_set_priority c10_final 3 5).1 = false ∧
    process_get_stats c10_final 3 = none := by
  decide!

end SyncOS
